import Mathlib

/-!
# Steam Deck HIDAPI driver (`src/joystick/hidapi/SDL_hidapi_steamdeck.c`)

A shallow embedding of the driver's lizard-mode handshake, device initialisation, per-cycle
update routine and capability callbacks, followed by theorems about them.

Modelling conventions.

* The C functions talk to three outside parties: the HID transport (`SDL_hid_*`), the
  joystick framework (`HIDAPI_Joystick*`) and the event sink (`SDL_PrivateJoystick*`).
  Every call the code makes to one of them is recorded, in program order, as an `Effect`.
  The values those calls hand back (byte counts, the bytes read, lookup results) are
  inputs of the embedded function, one field per call site.
* Machine integers are `Nat`/`Int`; wrap-around is written out (`% 256` for the `Uint8`
  counter, `% 2 ^ 32` for the `Uint32` timestamp, `toSint16` for the `Sint16` axis
  parameter).
* The protocol constants of `steam/controller_constants.h` are not part of the sources at
  hand; they are collected in `ControllerConstants` and every function takes them as a
  parameter.
* The float scaling of the IMU samples is not evaluated: a sensor effect carries the three
  integer channel values that the code divides by `32768.0f`.
-/

namespace SteamDeck

/-! ## Constants and wire types -/

/-- Constants of `steam/controller_constants.h` and `steam/controller_structs.h` used by the
driver.  The header files are not available, so the values are parameters. -/
structure ControllerConstants where
  HID_FEATURE_REPORT_BYTES : Nat
  k_ValveInReportMsgVersion : Nat
  ID_CONTROLLER_DECK_STATE : Nat
  ID_CLEAR_DIGITAL_MAPPINGS : Nat
  ID_SET_SETTINGS_VALUES : Nat
  SETTING_SMOOTH_ABSOLUTE_MOUSE : Nat
  SETTING_LEFT_TRACKPAD_MODE : Nat
  SETTING_RIGHT_TRACKPAD_MODE : Nat
  SETTING_LEFT_TRACKPAD_CLICK_PRESSURE : Nat
  SETTING_RIGHT_TRACKPAD_CLICK_PRESSURE : Nat
  TRACKPAD_NONE : Nat
  sizeof_ControllerSetting : Nat
deriving DecidableEq, Repr

/-- A sample instantiation of the constants, used where a concrete input is evaluated. -/
def sampleConstants : ControllerConstants where
  HID_FEATURE_REPORT_BYTES := 64
  k_ValveInReportMsgVersion := 1
  ID_CONTROLLER_DECK_STATE := 9
  ID_CLEAR_DIGITAL_MAPPINGS := 129
  ID_SET_SETTINGS_VALUES := 135
  SETTING_SMOOTH_ABSOLUTE_MOUSE := 24
  SETTING_LEFT_TRACKPAD_MODE := 7
  SETTING_RIGHT_TRACKPAD_MODE := 8
  SETTING_LEFT_TRACKPAD_CLICK_PRESSURE := 52
  SETTING_RIGHT_TRACKPAD_CLICK_PRESSURE := 53
  TRACKPAD_NONE := 7
  sizeof_ControllerSetting := 3

/-- The size of the feature-report buffer: `Uint8 buffer[HID_FEATURE_REPORT_BYTES + 1]`. -/
def sizeof_buffer (K : ControllerConstants) : Int :=
  (K.HID_FEATURE_REPORT_BYTES : Int) + 1

/-! ### `SteamDeckButtons` (lines 36-63) -/

def STEAMDECK_LBUTTON_R2 : Nat := 0x00000001
def STEAMDECK_LBUTTON_L2 : Nat := 0x00000002
def STEAMDECK_LBUTTON_R : Nat := 0x00000004
def STEAMDECK_LBUTTON_L : Nat := 0x00000008
def STEAMDECK_LBUTTON_Y : Nat := 0x00000010
def STEAMDECK_LBUTTON_B : Nat := 0x00000020
def STEAMDECK_LBUTTON_X : Nat := 0x00000040
def STEAMDECK_LBUTTON_A : Nat := 0x00000080
def STEAMDECK_LBUTTON_DPAD_UP : Nat := 0x00000100
def STEAMDECK_LBUTTON_DPAD_RIGHT : Nat := 0x00000200
def STEAMDECK_LBUTTON_DPAD_LEFT : Nat := 0x00000400
def STEAMDECK_LBUTTON_DPAD_DOWN : Nat := 0x00000800
def STEAMDECK_LBUTTON_VIEW : Nat := 0x00001000
def STEAMDECK_LBUTTON_STEAM : Nat := 0x00002000
def STEAMDECK_LBUTTON_MENU : Nat := 0x00004000
def STEAMDECK_LBUTTON_L5 : Nat := 0x00008000
def STEAMDECK_LBUTTON_R5 : Nat := 0x00010000
def STEAMDECK_LBUTTON_LEFT_PAD : Nat := 0x00020000
def STEAMDECK_LBUTTON_RIGHT_PAD : Nat := 0x00040000
def STEAMDECK_LBUTTON_L3 : Nat := 0x00400000
def STEAMDECK_LBUTTON_R3 : Nat := 0x04000000
def STEAMDECK_HBUTTON_L4 : Nat := 0x00000200
def STEAMDECK_HBUTTON_R4 : Nat := 0x00000400
def STEAMDECK_HBUTTON_QAM : Nat := 0x00040000

/-- The button identifiers of `SDL_GameControllerButton` that the driver names. -/
inductive SDL_GameControllerButton where
  | A | B | X | Y
  | BACK | GUIDE | START
  | LEFTSTICK | RIGHTSTICK
  | LEFTSHOULDER | RIGHTSHOULDER
  | DPAD_UP | DPAD_DOWN | DPAD_LEFT | DPAD_RIGHT
  | MISC1 | PADDLE1 | PADDLE2 | PADDLE3 | PADDLE4
deriving DecidableEq, Repr

/-- The axis identifiers of `SDL_GameControllerAxis`. -/
inductive SDL_GameControllerAxis where
  | LEFTX | LEFTY | RIGHTX | RIGHTY | TRIGGERLEFT | TRIGGERRIGHT
deriving DecidableEq, Repr

/-- The two sensor kinds the driver reports. -/
inductive SDL_SensorType where
  | SDL_SENSOR_ACCEL | SDL_SENSOR_GYRO
deriving DecidableEq, Repr

/-- Button state passed to `SDL_PrivateJoystickButton`. -/
inductive ButtonState where
  | SDL_RELEASED | SDL_PRESSED
deriving DecidableEq, Repr

/-- The part of a `FeatureReportMsg` the driver fills in: header type, header length and the
`settingNum`/`settingValue` pairs written into the payload. -/
structure FeatureReportMsg where
  type : Nat
  length : Nat
  settings : List (Nat × Nat)
deriving DecidableEq, Repr

/-- Header of `ValveInReport_t`. -/
structure ValveInReportHeader_t where
  unReportVersion : Nat
  ucType : Nat
  ucLength : Nat
deriving DecidableEq, Repr

/-- The fields of `SteamDeckStatePacket_t` read by the driver.  `ulButtonsL`/`ulButtonsH` are the
32-bit halves of the button union, the trigger fields are unsigned 16-bit, all other fields are
signed 16-bit. -/
structure SteamDeckStatePacket_t where
  ulButtonsL : Nat
  ulButtonsH : Nat
  sTriggerRawL : Nat
  sTriggerRawR : Nat
  sLeftStickX : Int
  sLeftStickY : Int
  sRightStickX : Int
  sRightStickY : Int
  sAccelX : Int
  sAccelY : Int
  sAccelZ : Int
  sGyroX : Int
  sGyroY : Int
  sGyroZ : Int
deriving DecidableEq, Repr

/-- Modelled from the spec: the union member `ulButtons` of `SteamDeckStatePacket_t`, whose
declaration (`steam/controller_structs.h`) is missing.  It is "the 64-bit value formed by
concatenating the low and high button-flag words". -/
def SteamDeckStatePacket_t.ulButtons (s : SteamDeckStatePacket_t) : Nat :=
  s.ulButtonsL + s.ulButtonsH * 2 ^ 32

/-- The 64-byte input buffer seen through `ValveInReport_t *pInReport`. -/
structure ValveInReport_t where
  header : ValveInReportHeader_t
  deckState : SteamDeckStatePacket_t
deriving DecidableEq, Repr

/-- The driver context, lines 65-71. -/
structure SDL_DriverSteamDeck_Context where
  update_rate_us : Nat
  sensor_timestamp_us : Nat
  last_button_state : Nat
  watchdog_counter : Nat
deriving DecidableEq, Repr

/-! ## Effects -/

/-- One call made by the driver to the transport, the framework or the event sink. -/
inductive Effect where
  | hid_send_feature_report (msg : FeatureReportMsg)
  | hid_get_feature_report
  | hid_read_timeout (milliseconds : Nat)
  | hid_read
  | OutOfMemory
  | SetDeviceName
  | JoystickConnected
  | JoystickDisconnected
  | JoystickButton (button : SDL_GameControllerButton) (state : ButtonState)
  | JoystickAxis (axis : SDL_GameControllerAxis) (value : Int)
  | JoystickSensor (type : SDL_SensorType) (timestamp_us : Nat) (x y z : Int)
deriving DecidableEq, Repr

/-- Conversion of an `int` argument to the `Sint16` parameter of `SDL_PrivateJoystickAxis`
(two-complement wrap-around). -/
def toSint16 (v : Int) : Int :=
  (v + 32768) % 65536 - 32768

/-- The call `SDL_PrivateJoystickAxis(joystick, axis, value)`: the value reaches the sink as a
`Sint16`. -/
def SDL_PrivateJoystickAxis (axis : SDL_GameControllerAxis) (value : Int) : Effect :=
  .JoystickAxis axis (toSint16 value)

/-- The call `SDL_PrivateJoystickButton(joystick, button, (word & flag) ? SDL_PRESSED : SDL_RELEASED)`. -/
def SDL_PrivateJoystickButton (button : SDL_GameControllerButton) (word flag : Nat) : Effect :=
  .JoystickButton button (if word &&& flag ≠ 0 then .SDL_PRESSED else .SDL_RELEASED)

/-! ## The lizard-mode handshake -/

/-- Function `DisableDeckLizardMode`, lines 73-107.  `rc1` and `rc2` are the values returned by the first
and the second `SDL_hid_send_feature_report`, `reply` is the value returned by
`SDL_hid_get_feature_report`; each is consulted only if the call is reached.  The result is the
returned `SDL_bool` and the transport calls issued. -/
def DisableDeckLizardMode (K : ControllerConstants) (rc1 rc2 _reply : Int) : Bool × List Effect :=
  let msg1 : FeatureReportMsg :=
    { type := K.ID_CLEAR_DIGITAL_MAPPINGS, length := 0, settings := [] }
  if rc1 ≠ sizeof_buffer K then
    (false, [.hid_send_feature_report msg1])
  else
    let msg2 : FeatureReportMsg :=
      { type := K.ID_SET_SETTINGS_VALUES
        length := 5 * K.sizeof_ControllerSetting
        settings :=
          [ (K.SETTING_SMOOTH_ABSOLUTE_MOUSE, 0),
            (K.SETTING_LEFT_TRACKPAD_MODE, K.TRACKPAD_NONE),
            (K.SETTING_RIGHT_TRACKPAD_MODE, K.TRACKPAD_NONE),
            (K.SETTING_LEFT_TRACKPAD_CLICK_PRESSURE, 0xFFFF),
            (K.SETTING_RIGHT_TRACKPAD_CLICK_PRESSURE, 0xFFFF) ] }
    if rc2 ≠ sizeof_buffer K then
      (false, [.hid_send_feature_report msg1, .hid_send_feature_report msg2])
    else
      (true, [.hid_send_feature_report msg1, .hid_send_feature_report msg2,
              .hid_get_feature_report])

/-- Function `FeedDeckLizardWatchdog`, lines 109-135; same conventions as `DisableDeckLizardMode`. -/
def FeedDeckLizardWatchdog (K : ControllerConstants) (rc1 rc2 _reply : Int) : Bool × List Effect :=
  let msg1 : FeatureReportMsg :=
    { type := K.ID_CLEAR_DIGITAL_MAPPINGS, length := 0, settings := [] }
  if rc1 ≠ sizeof_buffer K then
    (false, [.hid_send_feature_report msg1])
  else
    let msg2 : FeatureReportMsg :=
      { type := K.ID_SET_SETTINGS_VALUES
        length := 1 * K.sizeof_ControllerSetting
        settings := [ (K.SETTING_RIGHT_TRACKPAD_MODE, K.TRACKPAD_NONE) ] }
    if rc2 ≠ sizeof_buffer K then
      (false, [.hid_send_feature_report msg1, .hid_send_feature_report msg2])
    else
      (true, [.hid_send_feature_report msg1, .hid_send_feature_report msg2,
              .hid_get_feature_report])

/-! ## Device initialisation -/

/-- What the outside world answers during `HIDAPI_DriverSteamDeck_InitDevice`. -/
structure InitInput where
  /-- whether `SDL_calloc` returned a non-NULL pointer -/
  calloc_ok : Bool
  /-- value returned by `SDL_hid_read_timeout(device->dev, data, sizeof(data), 16)` -/
  size : Int
  /-- values returned by the two feature-report writes and the feature-report read -/
  rc1 : Int
  rc2 : Int
  reply : Int
  /-- value returned by `HIDAPI_JoystickConnected(device, NULL)` -/
  connected : Bool
deriving DecidableEq, Repr

/-- Outcome of `HIDAPI_DriverSteamDeck_InitDevice`: the returned `SDL_bool`, the value of
`device->context` afterwards (`none` when nothing was stored) and the calls made. -/
structure InitResult where
  ret : Bool
  context : Option SDL_DriverSteamDeck_Context
  effects : List Effect
deriving DecidableEq, Repr

/-- Function `HIDAPI_DriverSteamDeck_InitDevice`, lines 170-200. -/
def HIDAPI_DriverSteamDeck_InitDevice (K : ControllerConstants) (i : InitInput) : InitResult :=
  if !i.calloc_ok then
    { ret := false, context := none, effects := [.OutOfMemory] }
  else
    -- `SDL_calloc` zero-fills; `ctx->update_rate_us = 1000`
    let ctx : SDL_DriverSteamDeck_Context :=
      { update_rate_us := 1000, sensor_timestamp_us := 0, last_button_state := 0,
        watchdog_counter := 0 }
    if i.size = 0 then
      { ret := false, context := some ctx, effects := [.hid_read_timeout 16] }
    else
      let h := DisableDeckLizardMode K i.rc1 i.rc2 i.reply
      if !h.1 then
        { ret := false, context := some ctx, effects := .hid_read_timeout 16 :: h.2 }
      else
        { ret := i.connected, context := some ctx,
          effects := .hid_read_timeout 16 :: h.2 ++ [.SetDeviceName, .JoystickConnected] }

/-! ## The update cycle -/

/-- What the outside world answers during one `HIDAPI_DriverSteamDeck_UpdateDevice` call. -/
structure UpdateInput where
  /-- the value of `device->num_joysticks` -/
  num_joysticks : Int
  /-- whether `SDL_JoystickFromInstanceID(device->joysticks[0])` returned a non-NULL joystick -/
  joystick : Bool
  /-- values returned by the transport calls of `FeedDeckLizardWatchdog`, if it runs -/
  feed_rc1 : Int
  feed_rc2 : Int
  feed_reply : Int
  /-- value returned by `SDL_hid_read(device->dev, data, sizeof(data))` -/
  r : Int
  /-- contents of `data` after the read -/
  report : ValveInReport_t
deriving DecidableEq, Repr

/-- Outcome of one update cycle: the returned `SDL_bool`, the context afterwards and the calls
made, in order. -/
structure UpdateResult where
  ret : Bool
  ctx : SDL_DriverSteamDeck_Context
  effects : List Effect
deriving DecidableEq, Repr

/-- The condition of line 245 under which the report is decoded. -/
def conforming (K : ControllerConstants) (r : Int) (p : ValveInReport_t) : Bool :=
  r = 64 && p.header.unReportVersion = K.k_ValveInReportMsgVersion
    && p.header.ucType = K.ID_CONTROLLER_DECK_STATE && p.header.ucLength = 64

/-- The twenty `SDL_PrivateJoystickButton` calls of lines 252-296. -/
def buttonCalls (s : SteamDeckStatePacket_t) : List Effect :=
  [ SDL_PrivateJoystickButton .A s.ulButtonsL STEAMDECK_LBUTTON_A,
    SDL_PrivateJoystickButton .B s.ulButtonsL STEAMDECK_LBUTTON_B,
    SDL_PrivateJoystickButton .X s.ulButtonsL STEAMDECK_LBUTTON_X,
    SDL_PrivateJoystickButton .Y s.ulButtonsL STEAMDECK_LBUTTON_Y,
    SDL_PrivateJoystickButton .LEFTSHOULDER s.ulButtonsL STEAMDECK_LBUTTON_L,
    SDL_PrivateJoystickButton .RIGHTSHOULDER s.ulButtonsL STEAMDECK_LBUTTON_R,
    SDL_PrivateJoystickButton .BACK s.ulButtonsL STEAMDECK_LBUTTON_VIEW,
    SDL_PrivateJoystickButton .START s.ulButtonsL STEAMDECK_LBUTTON_MENU,
    SDL_PrivateJoystickButton .GUIDE s.ulButtonsL STEAMDECK_LBUTTON_STEAM,
    SDL_PrivateJoystickButton .MISC1 s.ulButtonsH STEAMDECK_HBUTTON_QAM,
    SDL_PrivateJoystickButton .LEFTSTICK s.ulButtonsL STEAMDECK_LBUTTON_L3,
    SDL_PrivateJoystickButton .RIGHTSTICK s.ulButtonsL STEAMDECK_LBUTTON_R3,
    SDL_PrivateJoystickButton .PADDLE1 s.ulButtonsH STEAMDECK_HBUTTON_R4,
    SDL_PrivateJoystickButton .PADDLE2 s.ulButtonsH STEAMDECK_HBUTTON_L4,
    SDL_PrivateJoystickButton .PADDLE3 s.ulButtonsL STEAMDECK_LBUTTON_R5,
    SDL_PrivateJoystickButton .PADDLE4 s.ulButtonsL STEAMDECK_LBUTTON_L5,
    SDL_PrivateJoystickButton .DPAD_UP s.ulButtonsL STEAMDECK_LBUTTON_DPAD_UP,
    SDL_PrivateJoystickButton .DPAD_DOWN s.ulButtonsL STEAMDECK_LBUTTON_DPAD_DOWN,
    SDL_PrivateJoystickButton .DPAD_LEFT s.ulButtonsL STEAMDECK_LBUTTON_DPAD_LEFT,
    SDL_PrivateJoystickButton .DPAD_RIGHT s.ulButtonsL STEAMDECK_LBUTTON_DPAD_RIGHT ]

/-- The six `SDL_PrivateJoystickAxis` calls of lines 300-312.  The trigger fields are promoted to
`int` before the arithmetic, the stick fields before the negation. -/
def axisCalls (s : SteamDeckStatePacket_t) : List Effect :=
  [ SDL_PrivateJoystickAxis .TRIGGERLEFT ((s.sTriggerRawL : Int) * 2 - 32768),
    SDL_PrivateJoystickAxis .TRIGGERRIGHT ((s.sTriggerRawR : Int) * 2 - 32768),
    SDL_PrivateJoystickAxis .LEFTX s.sLeftStickX,
    SDL_PrivateJoystickAxis .LEFTY (-s.sLeftStickY),
    SDL_PrivateJoystickAxis .RIGHTX s.sRightStickX,
    SDL_PrivateJoystickAxis .RIGHTY (-s.sRightStickY) ]

/-- The two `SDL_PrivateJoystickSensor` calls of lines 316-324, with the integer channel values
that the code scales (`sGyroX`, `sGyroZ`, `-sGyroY`; `sAccelX`, `sAccelZ`, `-sAccelY`). -/
def sensorCalls (timestamp_us : Nat) (s : SteamDeckStatePacket_t) : List Effect :=
  [ .JoystickSensor .SDL_SENSOR_GYRO timestamp_us s.sGyroX s.sGyroZ (-s.sGyroY),
    .JoystickSensor .SDL_SENSOR_ACCEL timestamp_us s.sAccelX s.sAccelZ (-s.sAccelY) ]

/-- Function `HIDAPI_DriverSteamDeck_UpdateDevice`, lines 211-327. -/
def HIDAPI_DriverSteamDeck_UpdateDevice (K : ControllerConstants)
    (ctx : SDL_DriverSteamDeck_Context) (i : UpdateInput) : UpdateResult :=
  if i.num_joysticks > 0 then
    if !i.joystick then
      { ret := false, ctx := ctx, effects := [] }
    else
      -- `if (ctx->watchdog_counter++ > 200)`: the old value is compared, the `Uint8` is bumped
      let due : Bool := ctx.watchdog_counter > 200
      let ctx1 := { ctx with watchdog_counter := (ctx.watchdog_counter + 1) % 256 }
      let ctx2 := if due then { ctx1 with watchdog_counter := 0 } else ctx1
      let feed : Bool × List Effect :=
        if due then FeedDeckLizardWatchdog K i.feed_rc1 i.feed_rc2 i.feed_reply else (true, [])
      if !feed.1 then
        { ret := false, ctx := ctx2, effects := feed.2 }
      else if i.r = 0 then
        { ret := false, ctx := ctx2, effects := feed.2 ++ [.hid_read] }
      else if i.r ≤ 0 then
        { ret := false, ctx := ctx2, effects := feed.2 ++ [.hid_read, .JoystickDisconnected] }
      else if !conforming K i.r i.report then
        { ret := false, ctx := ctx2, effects := feed.2 ++ [.hid_read] }
      else
        let s := i.report.deckState
        let changed : Bool := s.ulButtons ≠ ctx2.last_button_state
        let ctx3 := if changed then { ctx2 with last_button_state := s.ulButtons } else ctx2
        let ctx4 :=
          { ctx3 with
            sensor_timestamp_us := (ctx3.sensor_timestamp_us + ctx3.update_rate_us) % 2 ^ 32 }
        { ret := true, ctx := ctx4,
          effects := feed.2 ++ [.hid_read] ++ (if changed then buttonCalls s else [])
            ++ axisCalls s ++ sensorCalls ctx4.sensor_timestamp_us s }
  else
    { ret := false, ctx := ctx, effects := [] }

/-- Consecutive update cycles: the context is threaded through, one result per cycle. -/
def updateCycles (K : ControllerConstants) :
    SDL_DriverSteamDeck_Context → List UpdateInput → List UpdateResult
  | _, [] => []
  | ctx, i :: rest =>
    let res := HIDAPI_DriverSteamDeck_UpdateDevice K ctx i
    res :: updateCycles K res.ctx rest

/-! ## Observations on the effect log -/

/-- Is the effect a button event? -/
def Effect.isButton : Effect → Bool
  | .JoystickButton _ _ => true
  | _ => false

/-- Is the effect an axis event? -/
def Effect.isAxis : Effect → Bool
  | .JoystickAxis _ _ => true
  | _ => false

/-- Is the effect a sensor sample? -/
def Effect.isSensor : Effect → Bool
  | .JoystickSensor _ _ _ _ _ => true
  | _ => false

/-- Is the effect a feature-report write? -/
def Effect.isSend : Effect → Bool
  | .hid_send_feature_report _ => true
  | _ => false

/-- The button events of a log. -/
def buttonEvents (l : List Effect) : List Effect := l.filter Effect.isButton

/-- The axis events of a log. -/
def axisEvents (l : List Effect) : List Effect := l.filter Effect.isAxis

/-- The sensor samples of a log. -/
def sensorEvents (l : List Effect) : List Effect := l.filter Effect.isSensor

/-- The events delivered to the sink (button, axis, sensor), in order. -/
def sinkEvents (l : List Effect) : List Effect :=
  l.filter fun e => e.isButton || e.isAxis || e.isSensor

/-- Number of disconnect signals in a log. -/
def disconnects (l : List Effect) : Nat := l.count .JoystickDisconnected

/-- The timestamp of a sample of sensor kind `k`. -/
def Effect.sensorTimestampOf (k : SDL_SensorType) : Effect → Option Nat
  | .JoystickSensor t ts _ _ _ => if t = k then some ts else none
  | _ => none

/-- The timestamps of the samples of one sensor kind, in order of emission. -/
def sensorTimestamps (k : SDL_SensorType) (l : List Effect) : List Nat :=
  l.filterMap (Effect.sensorTimestampOf k)

/-- The calls of a run of cycles, in order. -/
def allEffects : List UpdateResult → List Effect
  | [] => []
  | r :: rest => r.effects ++ allEffects rest

/-- A sample conforming report and sample inputs, used where a concrete cycle is evaluated. -/
def sampleState : SteamDeckStatePacket_t :=
  { ulButtonsL := 0x80, ulButtonsH := 0, sTriggerRawL := 0, sTriggerRawR := 32767,
    sLeftStickX := 100, sLeftStickY := -200, sRightStickX := 32767, sRightStickY := -32768,
    sAccelX := 1, sAccelY := 2, sAccelZ := 3, sGyroX := 4, sGyroY := 5, sGyroZ := 6 }

/-- A conforming report carrying `sampleState`. -/
def sampleReport : ValveInReport_t :=
  { header := { unReportVersion := 1, ucType := 9, ucLength := 64 }, deckState := sampleState }

/-- A cycle in which a joystick is registered and the read returns `r` bytes holding
`sampleReport`; the feature-report writes would succeed. -/
def sampleInput (r : Int) : UpdateInput :=
  { num_joysticks := 1, joystick := true, feed_rc1 := 65, feed_rc2 := 65, feed_reply := 65,
    r := r, report := sampleReport }

/-- A cycle like `sampleInput 64` whose report carries version tag 2 instead of 1. -/
def misTaggedInput : UpdateInput :=
  { sampleInput 64 with
    report := { sampleReport with
      header := { unReportVersion := 2, ucType := 9, ucLength := 64 } } }

/-- The context stored by a successful `HIDAPI_DriverSteamDeck_InitDevice`. -/
def freshContext : SDL_DriverSteamDeck_Context :=
  { update_rate_us := 1000, sensor_timestamp_us := 0, last_button_state := 0,
    watchdog_counter := 0 }

/-- The context reached from `freshContext` after 4294967 cycles that each decoded
`sampleReport` (about 71.6 minutes at 1 kHz): `4294967 * 1000 = 4294967000` and
`4294967 % 202 = 43`. -/
def lateContext : SDL_DriverSteamDeck_Context :=
  { update_rate_us := 1000, sensor_timestamp_us := 4294967000, last_button_state := 0x80,
    watchdog_counter := 43 }

/-! ## Derived notions used in the statements -/

/-- The transport calls of the watchdog step of a cycle: those of `FeedDeckLizardWatchdog` when the
feed is due, none otherwise. -/
def watchdogCalls (K : ControllerConstants) (ctx : SDL_DriverSteamDeck_Context)
    (i : UpdateInput) : List Effect :=
  if ctx.watchdog_counter > 200 then
    (FeedDeckLizardWatchdog K i.feed_rc1 i.feed_rc2 i.feed_reply).2
  else []

/-- The watchdog counter after the watchdog step of a cycle. -/
def watchdogNext (c : Nat) : Nat :=
  if c > 200 then 0 else (c + 1) % 256

/-- The cycle gets as far as the input-report read: a joystick is registered and the feed, when
due, succeeds. -/
def reachesRead (K : ControllerConstants) (ctx : SDL_DriverSteamDeck_Context)
    (i : UpdateInput) : Prop :=
  i.num_joysticks > 0 ∧ i.joystick = true ∧
    (ctx.watchdog_counter > 200 →
      i.feed_rc1 = sizeof_buffer K ∧ i.feed_rc2 = sizeof_buffer K)

instance (K : ControllerConstants) (ctx : SDL_DriverSteamDeck_Context) (i : UpdateInput) :
    Decidable (reachesRead K ctx i) := by
  unfold reachesRead; infer_instance

/-- A joystick is registered and both feature-report writes of a watchdog feed would return the
buffer size. -/
def feedsSucceed (K : ControllerConstants) (i : UpdateInput) : Prop :=
  i.num_joysticks > 0 ∧ i.joystick = true ∧
    i.feed_rc1 = sizeof_buffer K ∧ i.feed_rc2 = sizeof_buffer K

instance (K : ControllerConstants) (i : UpdateInput) : Decidable (feedsSucceed K i) := by
  unfold feedsSucceed; infer_instance

/-- The first message of both handshakes: "clear digital mappings", empty payload. -/
def clearDigitalMappings (K : ControllerConstants) : FeatureReportMsg :=
  { type := K.ID_CLEAR_DIGITAL_MAPPINGS, length := 0, settings := [] }

/-- Inputs of an initialisation in which the allocation and the identification read succeed and
the two feature-report writes return `rc1` and `rc2`. -/
def sampleInit (rc1 rc2 : Int) : InitInput :=
  { calloc_ok := true, size := 64, rc1 := rc1, rc2 := rc2, reply := 65, connected := true }

/-! ## The button mapping as a table -/

/-- Which half of the button union a flag lives in: `ulButtonsL` or `ulButtonsH`. -/
inductive ButtonWord where
  | L | H
deriving DecidableEq, Repr

/-- The button word of a report selected by a `ButtonWord`. -/
def SteamDeckStatePacket_t.buttonWord (s : SteamDeckStatePacket_t) : ButtonWord → Nat
  | .L => s.ulButtonsL
  | .H => s.ulButtonsH

/-- The mapping of lines 252-296, one row per `SDL_PrivateJoystickButton` call in source order:
the button reported, the word tested and the bit position of the flag tested
(`STEAMDECK_LBUTTON_A = 0x80` is bit 7 of the low word, and so on). -/
def buttonBits : List (SDL_GameControllerButton × ButtonWord × Nat) :=
  [ (.A, .L, 7), (.B, .L, 5), (.X, .L, 6), (.Y, .L, 4),
    (.LEFTSHOULDER, .L, 3), (.RIGHTSHOULDER, .L, 2),
    (.BACK, .L, 12), (.START, .L, 14), (.GUIDE, .L, 13), (.MISC1, .H, 18),
    (.LEFTSTICK, .L, 22), (.RIGHTSTICK, .L, 26),
    (.PADDLE1, .H, 10), (.PADDLE2, .H, 9), (.PADDLE3, .L, 16), (.PADDLE4, .L, 15),
    (.DPAD_UP, .L, 8), (.DPAD_DOWN, .L, 11), (.DPAD_LEFT, .L, 10), (.DPAD_RIGHT, .L, 9) ]

/-- The 24 constants of the enum `SteamDeckButtons` (lines 36-63), each with the word its name
assigns it to (`LBUTTON`: low word, `HBUTTON`: high word). -/
def SteamDeckButtons : List (ButtonWord × Nat) :=
  [ (.L, STEAMDECK_LBUTTON_R2), (.L, STEAMDECK_LBUTTON_L2), (.L, STEAMDECK_LBUTTON_R),
    (.L, STEAMDECK_LBUTTON_L), (.L, STEAMDECK_LBUTTON_Y), (.L, STEAMDECK_LBUTTON_B),
    (.L, STEAMDECK_LBUTTON_X), (.L, STEAMDECK_LBUTTON_A), (.L, STEAMDECK_LBUTTON_DPAD_UP),
    (.L, STEAMDECK_LBUTTON_DPAD_RIGHT), (.L, STEAMDECK_LBUTTON_DPAD_LEFT),
    (.L, STEAMDECK_LBUTTON_DPAD_DOWN), (.L, STEAMDECK_LBUTTON_VIEW),
    (.L, STEAMDECK_LBUTTON_STEAM), (.L, STEAMDECK_LBUTTON_MENU), (.L, STEAMDECK_LBUTTON_L5),
    (.L, STEAMDECK_LBUTTON_R5), (.L, STEAMDECK_LBUTTON_LEFT_PAD),
    (.L, STEAMDECK_LBUTTON_RIGHT_PAD), (.L, STEAMDECK_LBUTTON_L3), (.L, STEAMDECK_LBUTTON_R3),
    (.H, STEAMDECK_HBUTTON_L4), (.H, STEAMDECK_HBUTTON_R4), (.H, STEAMDECK_HBUTTON_QAM) ]

/-- The buttons whose reported state is computed from the flag `f` (a word and a mask): the
rows of the mapping that test that word with that mask. -/
def drivenBy (f : ButtonWord × Nat) : List SDL_GameControllerButton :=
  (buttonBits.filter fun e => e.2.1 = f.1 ∧ 2 ^ e.2.2 = f.2).map (·.1)

/-- The flags of `SteamDeckButtons` that no `SDL_PrivateJoystickButton` call tests. -/
def unmappedFlags : List (ButtonWord × Nat) :=
  [ (.L, STEAMDECK_LBUTTON_R2), (.L, STEAMDECK_LBUTTON_L2),
    (.L, STEAMDECK_LBUTTON_LEFT_PAD), (.L, STEAMDECK_LBUTTON_RIGHT_PAD) ]

/-- Two reports agree on the twenty flag bits the mapping tests. -/
def buttonBitsAgree (s1 s2 : SteamDeckStatePacket_t) : Prop :=
  ∀ e ∈ buttonBits,
    (s1.buttonWord e.2.1).testBit e.2.2 = (s2.buttonWord e.2.1).testBit e.2.2

instance (s1 s2 : SteamDeckStatePacket_t) : Decidable (buttonBitsAgree s1 s2) := by
  unfold buttonBitsAgree; infer_instance

/-- The button event the mapping row `e` yields for the report `s`. -/
def buttonEventOf (s : SteamDeckStatePacket_t)
    (e : SDL_GameControllerButton × ButtonWord × Nat) : Effect :=
  .JoystickButton e.1
    (if (s.buttonWord e.2.1).testBit e.2.2 then .SDL_PRESSED else .SDL_RELEASED)

/-- Is the effect a button event for the button `b`? -/
def Effect.isButtonOf (b : SDL_GameControllerButton) : Effect → Bool
  | .JoystickButton b2 _ => decide (b2 = b)
  | _ => false

/-- The report `sampleState` with its button words replaced by `l` (low) and `h` (high). -/
def stateWithButtons (l h : Nat) : SteamDeckStatePacket_t :=
  { sampleState with ulButtonsL := l, ulButtonsH := h }

/-- A cycle like `sampleInput 64` whose conforming report carries the button words `l`, `h`. -/
def inputWithButtons (l h : Nat) : UpdateInput :=
  { sampleInput 64 with report := { sampleReport with deckState := stateWithButtons l h } }

/-! ## Opening the joystick and the capability callbacks -/

/-- What `HIDAPI_DriverSteamDeck_OpenJoystick` leaves behind: the returned `SDL_bool`, the
capability fields written to the joystick and the sensors registered, in order.  The sample rate
passed with each sensor is a `float` computed from `update_rate_us` and is not evaluated. -/
structure OpenResult where
  ret : Bool
  nbuttons : Nat
  naxes : Nat
  sensors : List SDL_SensorType
deriving DecidableEq, Repr

/-- Function `HIDAPI_DriverSteamDeck_OpenJoystick`, lines 329-344.  The constant
`SDL_CONTROLLER_AXIS_MAX` comes from a header that is not available and is a parameter. -/
def HIDAPI_DriverSteamDeck_OpenJoystick (SDL_CONTROLLER_AXIS_MAX : Nat)
    (_ctx : SDL_DriverSteamDeck_Context) : OpenResult :=
  { ret := true, nbuttons := 20, naxes := SDL_CONTROLLER_AXIS_MAX,
    sensors := [.SDL_SENSOR_GYRO, .SDL_SENSOR_ACCEL] }

/-- Modelled from the spec: the macro `SDL_Unsupported()` of `SDL_error.h`, which is missing.
The spec calls its value the explicit "unsupported" result, a failure that is never "success";
it is rendered as the error return -1, success being 0 as in
`HIDAPI_DriverSteamDeck_SetSensorsEnabled`. -/
def SDL_Unsupported : Int := -1

/-- Function `HIDAPI_DriverSteamDeck_GetDevicePlayerIndex`, lines 202-205. -/
def HIDAPI_DriverSteamDeck_GetDevicePlayerIndex (_instance_id : Int) : Int := -1

/-- Function `HIDAPI_DriverSteamDeck_RumbleJoystick`, lines 346-350. -/
def HIDAPI_DriverSteamDeck_RumbleJoystick (_low_frequency_rumble _high_frequency_rumble : Nat) :
    Int :=
  SDL_Unsupported

/-- Function `HIDAPI_DriverSteamDeck_RumbleJoystickTriggers`, lines 352-355. -/
def HIDAPI_DriverSteamDeck_RumbleJoystickTriggers (_left_rumble _right_rumble : Nat) : Int :=
  SDL_Unsupported

/-- Function `HIDAPI_DriverSteamDeck_GetJoystickCapabilities`, lines 357-360. -/
def HIDAPI_DriverSteamDeck_GetJoystickCapabilities : Nat := 0

/-- Function `HIDAPI_DriverSteamDeck_SetJoystickLED`, lines 362-365. -/
def HIDAPI_DriverSteamDeck_SetJoystickLED (_red _green _blue : Nat) : Int :=
  SDL_Unsupported

/-- Function `HIDAPI_DriverSteamDeck_SendJoystickEffect`, lines 367-370; `data` stands for the
bytes pointed to, `size` for the length argument. -/
def HIDAPI_DriverSteamDeck_SendJoystickEffect (_data : List Nat) (_size : Int) : Int :=
  SDL_Unsupported

/-- Function `HIDAPI_DriverSteamDeck_SetSensorsEnabled`, lines 372-376. -/
def HIDAPI_DriverSteamDeck_SetSensorsEnabled (_enabled : Bool) : Int := 0

/-! ## Further derived notions -/

/-- Is the effect a bounded-timeout read? -/
def Effect.isReadTimeout : Effect → Bool
  | .hid_read_timeout _ => true
  | _ => false

/-- The second message of `DisableDeckLizardMode`: "set settings values" with five settings. -/
def disableSettings (K : ControllerConstants) : FeatureReportMsg :=
  { type := K.ID_SET_SETTINGS_VALUES
    length := 5 * K.sizeof_ControllerSetting
    settings :=
      [ (K.SETTING_SMOOTH_ABSOLUTE_MOUSE, 0),
        (K.SETTING_LEFT_TRACKPAD_MODE, K.TRACKPAD_NONE),
        (K.SETTING_RIGHT_TRACKPAD_MODE, K.TRACKPAD_NONE),
        (K.SETTING_LEFT_TRACKPAD_CLICK_PRESSURE, 0xFFFF),
        (K.SETTING_RIGHT_TRACKPAD_CLICK_PRESSURE, 0xFFFF) ] }

/-- The second message of `FeedDeckLizardWatchdog`: "set settings values" with one setting. -/
def feedSettings (K : ControllerConstants) : FeatureReportMsg :=
  { type := K.ID_SET_SETTINGS_VALUES
    length := 1 * K.sizeof_ControllerSetting
    settings := [ (K.SETTING_RIGHT_TRACKPAD_MODE, K.TRACKPAD_NONE) ] }

/-- The context after a run of update cycles. -/
def finalContext (K : ControllerConstants) :
    SDL_DriverSteamDeck_Context → List UpdateInput → SDL_DriverSteamDeck_Context
  | ctx, [] => ctx
  | ctx, i :: rest => finalContext K (HIDAPI_DriverSteamDeck_UpdateDevice K ctx i).ctx rest

/-- A cycle during which no joystick is registered (`device->num_joysticks` is 0). -/
def noJoystickInput : UpdateInput :=
  { sampleInput 64 with num_joysticks := 0, joystick := false }

/-- A cycle with a registered joystick in which the feature-report writes return `rc1` and
`rc2`; the input read would deliver `sampleReport`. -/
def inputWithFeed (rc1 rc2 : Int) : UpdateInput :=
  { sampleInput 64 with feed_rc1 := rc1, feed_rc2 := rc2 }

/-- Inputs of an initialisation in which the allocation succeeds, the identification read returns
`size`, and handshake and registration succeed. -/
def initWithRead (size : Int) : InitInput :=
  { calloc_ok := true, size := size, rc1 := 65, rc2 := 65, reply := 65, connected := true }

/-! ## Auxiliary lemmas -/

theorem feed_fst_eq_true (K : ControllerConstants) (rc1 rc2 reply : Int) :
    (FeedDeckLizardWatchdog K rc1 rc2 reply).1 = true ↔
      rc1 = sizeof_buffer K ∧ rc2 = sizeof_buffer K := by
  unfold FeedDeckLizardWatchdog
  by_cases h1 : rc1 = sizeof_buffer K <;> by_cases h2 : rc2 = sizeof_buffer K <;> simp [h1, h2]

theorem feed_calls_not_sink (K : ControllerConstants) (rc1 rc2 reply : Int) :
    ∀ e ∈ (FeedDeckLizardWatchdog K rc1 rc2 reply).2,
      e.isButton = false ∧ e.isAxis = false ∧ e.isSensor = false ∧
        e ≠ .JoystickDisconnected ∧ e ≠ .hid_read := by
  unfold FeedDeckLizardWatchdog
  by_cases h1 : rc1 = sizeof_buffer K <;> by_cases h2 : rc2 = sizeof_buffer K <;>
    simp [h1, h2, Effect.isButton, Effect.isAxis, Effect.isSensor]

theorem watchdogCalls_not_sink (K : ControllerConstants) (ctx : SDL_DriverSteamDeck_Context)
    (i : UpdateInput) :
    ∀ e ∈ watchdogCalls K ctx i,
      e.isButton = false ∧ e.isAxis = false ∧ e.isSensor = false ∧
        e ≠ .JoystickDisconnected ∧ e ≠ .hid_read := by
  unfold watchdogCalls
  split
  · exact feed_calls_not_sink K _ _ _
  · simp

/-- A cycle without a usable joystick does nothing. -/
theorem update_no_joystick (K : ControllerConstants) (ctx : SDL_DriverSteamDeck_Context)
    (i : UpdateInput) (h : ¬ (i.num_joysticks > 0 ∧ i.joystick = true)) :
    HIDAPI_DriverSteamDeck_UpdateDevice K ctx i = { ret := false, ctx := ctx, effects := [] } := by
  unfold HIDAPI_DriverSteamDeck_UpdateDevice
  by_cases hn : i.num_joysticks > 0
  · have hj : i.joystick = false := by
      cases hjj : i.joystick
      · rfl
      · exact absurd ⟨hn, hjj⟩ h
    simp [hn, hj]
  · simp [hn]

/-- A cycle whose due feed fails stops after the watchdog step. -/
theorem update_feed_failed (K : ControllerConstants) (ctx : SDL_DriverSteamDeck_Context)
    (i : UpdateInput) (hn : i.num_joysticks > 0) (hj : i.joystick = true)
    (hdue : ctx.watchdog_counter > 200)
    (hf : ¬ (i.feed_rc1 = sizeof_buffer K ∧ i.feed_rc2 = sizeof_buffer K)) :
    HIDAPI_DriverSteamDeck_UpdateDevice K ctx i =
      { ret := false, ctx := { ctx with watchdog_counter := 0 },
        effects := (FeedDeckLizardWatchdog K i.feed_rc1 i.feed_rc2 i.feed_reply).2 } := by
  have h1 : (FeedDeckLizardWatchdog K i.feed_rc1 i.feed_rc2 i.feed_reply).1 = false := by
    cases hh : (FeedDeckLizardWatchdog K i.feed_rc1 i.feed_rc2 i.feed_reply).1
    · rfl
    · exact absurd ((feed_fst_eq_true K _ _ _).1 hh) hf
  unfold HIDAPI_DriverSteamDeck_UpdateDevice
  simp [hn, hj, hdue, h1]

/-- The feed, when due, succeeded (or no feed was due). -/
theorem feed_ok_of_reachesRead (K : ControllerConstants) (ctx : SDL_DriverSteamDeck_Context)
    (i : UpdateInput) (h : reachesRead K ctx i) :
    (if ctx.watchdog_counter > 200 then
        FeedDeckLizardWatchdog K i.feed_rc1 i.feed_rc2 i.feed_reply else (true, [])).1 = true := by
  split
  · next hd => exact (feed_fst_eq_true K _ _ _).2 (h.2.2 hd)
  · rfl

/-- A cycle that reaches the read and reads nothing. -/
theorem update_read_zero (K : ControllerConstants) (ctx : SDL_DriverSteamDeck_Context)
    (i : UpdateInput) (h : reachesRead K ctx i) (hr : i.r = 0) :
    HIDAPI_DriverSteamDeck_UpdateDevice K ctx i =
      { ret := false, ctx := { ctx with watchdog_counter := watchdogNext ctx.watchdog_counter },
        effects := watchdogCalls K ctx i ++ [.hid_read] } := by
  have hfeed := feed_ok_of_reachesRead K ctx i h
  obtain ⟨hn, hj, -⟩ := h
  unfold HIDAPI_DriverSteamDeck_UpdateDevice watchdogCalls watchdogNext
  by_cases hd : ctx.watchdog_counter > 200
  · simp only [hd, if_true] at hfeed
    simp [hn, hj, hd, hfeed, hr]
  · simp [hn, hj, hd, hr]

/-- A cycle that reaches the read and gets a transport error. -/
theorem update_read_negative (K : ControllerConstants) (ctx : SDL_DriverSteamDeck_Context)
    (i : UpdateInput) (h : reachesRead K ctx i) (hr : i.r < 0) :
    HIDAPI_DriverSteamDeck_UpdateDevice K ctx i =
      { ret := false, ctx := { ctx with watchdog_counter := watchdogNext ctx.watchdog_counter },
        effects := watchdogCalls K ctx i ++ [.hid_read, .JoystickDisconnected] } := by
  have hfeed := feed_ok_of_reachesRead K ctx i h
  obtain ⟨hn, hj, -⟩ := h
  have hr0 : i.r ≠ 0 := by omega
  have hr1 : i.r ≤ 0 := by omega
  unfold HIDAPI_DriverSteamDeck_UpdateDevice watchdogCalls watchdogNext
  by_cases hd : ctx.watchdog_counter > 200
  · simp only [hd, if_true] at hfeed
    simp [hn, hj, hd, hfeed, hr0, hr1]
  · simp [hn, hj, hd, hr0, hr1]

/-- A cycle that reaches the read and gets a positive, non-conforming result. -/
theorem update_read_nonconforming (K : ControllerConstants) (ctx : SDL_DriverSteamDeck_Context)
    (i : UpdateInput) (h : reachesRead K ctx i) (hr : 0 < i.r)
    (hc : conforming K i.r i.report = false) :
    HIDAPI_DriverSteamDeck_UpdateDevice K ctx i =
      { ret := false, ctx := { ctx with watchdog_counter := watchdogNext ctx.watchdog_counter },
        effects := watchdogCalls K ctx i ++ [.hid_read] } := by
  have hfeed := feed_ok_of_reachesRead K ctx i h
  obtain ⟨hn, hj, -⟩ := h
  have hr0 : i.r ≠ 0 := by omega
  have hr1 : ¬ i.r ≤ 0 := by omega
  unfold HIDAPI_DriverSteamDeck_UpdateDevice watchdogCalls watchdogNext
  by_cases hd : ctx.watchdog_counter > 200
  · simp only [hd, if_true] at hfeed
    simp [hn, hj, hd, hfeed, hr0, hr1, hc]
  · simp [hn, hj, hd, hr0, hr1, hc]

/-- A cycle that reaches the read and gets a conforming report. -/
theorem update_read_conforming (K : ControllerConstants) (ctx : SDL_DriverSteamDeck_Context)
    (i : UpdateInput) (h : reachesRead K ctx i) (hc : conforming K i.r i.report = true) :
    HIDAPI_DriverSteamDeck_UpdateDevice K ctx i =
      { ret := true,
        ctx :=
          { update_rate_us := ctx.update_rate_us
            sensor_timestamp_us := (ctx.sensor_timestamp_us + ctx.update_rate_us) % 2 ^ 32
            last_button_state := i.report.deckState.ulButtons
            watchdog_counter := watchdogNext ctx.watchdog_counter },
        effects := watchdogCalls K ctx i ++ [.hid_read]
          ++ (if i.report.deckState.ulButtons ≠ ctx.last_button_state
                then buttonCalls i.report.deckState else [])
          ++ axisCalls i.report.deckState
          ++ sensorCalls ((ctx.sensor_timestamp_us + ctx.update_rate_us) % 2 ^ 32)
               i.report.deckState } := by
  have hfeed := feed_ok_of_reachesRead K ctx i h
  obtain ⟨hn, hj, -⟩ := h
  have hr : i.r = 64 := by
    unfold conforming at hc
    simp only [Bool.and_eq_true, decide_eq_true_eq] at hc
    exact hc.1.1.1
  have hr0 : i.r ≠ 0 := by omega
  have hr1 : ¬ i.r ≤ 0 := by omega
  unfold HIDAPI_DriverSteamDeck_UpdateDevice watchdogCalls watchdogNext
  by_cases hd : ctx.watchdog_counter > 200 <;>
    by_cases hb : i.report.deckState.ulButtons = ctx.last_button_state
  · simp only [hd, if_true] at hfeed
    simp [hn, hj, hd, hfeed, hr0, hr1, hc, hb]
  · simp only [hd, if_true] at hfeed
    simp [hn, hj, hd, hfeed, hr0, hr1, hc, hb]
  · simp [hn, hj, hd, hr0, hr1, hc, hb]
  · simp [hn, hj, hd, hr0, hr1, hc, hb]

/-- Either the cycle decodes a report, or it returns `SDL_FALSE`, delivers nothing to the sink and
leaves every field but the watchdog counter alone. -/
theorem update_not_processed (K : ControllerConstants) (ctx : SDL_DriverSteamDeck_Context)
    (i : UpdateInput) (h : ¬ (reachesRead K ctx i ∧ conforming K i.r i.report = true)) :
    (HIDAPI_DriverSteamDeck_UpdateDevice K ctx i).ret = false ∧
    (∀ e ∈ (HIDAPI_DriverSteamDeck_UpdateDevice K ctx i).effects,
      e.isButton = false ∧ e.isAxis = false ∧ e.isSensor = false) ∧
    (HIDAPI_DriverSteamDeck_UpdateDevice K ctx i).ctx.sensor_timestamp_us
      = ctx.sensor_timestamp_us ∧
    (HIDAPI_DriverSteamDeck_UpdateDevice K ctx i).ctx.last_button_state
      = ctx.last_button_state ∧
    (HIDAPI_DriverSteamDeck_UpdateDevice K ctx i).ctx.update_rate_us = ctx.update_rate_us := by
  have hsink : ∀ e ∈ watchdogCalls K ctx i ++ [Effect.hid_read],
      e.isButton = false ∧ e.isAxis = false ∧ e.isSensor = false := by
    intro e he
    rcases List.mem_append.1 he with he | he
    · have := watchdogCalls_not_sink K ctx i e he
      exact ⟨this.1, this.2.1, this.2.2.1⟩
    · simp only [List.mem_singleton] at he
      subst he
      exact ⟨rfl, rfl, rfl⟩
  by_cases hnj : i.num_joysticks > 0 ∧ i.joystick = true
  · by_cases hrr : reachesRead K ctx i
    · have hc : conforming K i.r i.report = false := by
        cases hcc : conforming K i.r i.report
        · rfl
        · exact absurd ⟨hrr, hcc⟩ h
      rcases lt_trichotomy i.r 0 with hr | hr | hr
      · rw [update_read_negative K ctx i hrr hr]
        refine ⟨rfl, ?_, rfl, rfl, rfl⟩
        intro e he
        have he2 : e ∈ (watchdogCalls K ctx i ++ [Effect.hid_read])
            ++ [Effect.JoystickDisconnected] := by
          simpa using he
        rcases List.mem_append.1 he2 with he3 | he3
        · exact hsink e he3
        · simp only [List.mem_singleton] at he3
          subst he3
          exact ⟨rfl, rfl, rfl⟩
      · rw [update_read_zero K ctx i hrr hr]
        exact ⟨rfl, hsink, rfl, rfl, rfl⟩
      · rw [update_read_nonconforming K ctx i hrr hr hc]
        exact ⟨rfl, hsink, rfl, rfl, rfl⟩
    · have hdue : ctx.watchdog_counter > 200 := by
        by_contra hd
        exact hrr ⟨hnj.1, hnj.2, fun h2 => absurd h2 hd⟩
      have hf : ¬ (i.feed_rc1 = sizeof_buffer K ∧ i.feed_rc2 = sizeof_buffer K) :=
        fun hf => hrr ⟨hnj.1, hnj.2, fun _ => hf⟩
      rw [update_feed_failed K ctx i hnj.1 hnj.2 hdue hf]
      refine ⟨rfl, ?_, rfl, rfl, rfl⟩
      intro e he
      have := feed_calls_not_sink K _ _ _ e he
      exact ⟨this.1, this.2.1, this.2.2.1⟩
  · rw [update_no_joystick K ctx i hnj]
    refine ⟨rfl, ?_, rfl, rfl, rfl⟩
    intro e he
    simp at he

theorem filter_eq_nil_of_forall_false (p : Effect → Bool) (l : List Effect)
    (h : ∀ e ∈ l, p e = false) : l.filter p = [] := by
  rw [List.filter_eq_nil_iff]
  intro e he
  simp [h e he]

theorem buttonEvents_watchdogCalls (K : ControllerConstants) (ctx : SDL_DriverSteamDeck_Context)
    (i : UpdateInput) : buttonEvents (watchdogCalls K ctx i) = [] :=
  filter_eq_nil_of_forall_false _ _ fun e he => (watchdogCalls_not_sink K ctx i e he).1

theorem sensorEvents_watchdogCalls (K : ControllerConstants) (ctx : SDL_DriverSteamDeck_Context)
    (i : UpdateInput) : sensorEvents (watchdogCalls K ctx i) = [] :=
  filter_eq_nil_of_forall_false _ _ fun e he => (watchdogCalls_not_sink K ctx i e he).2.2.1

theorem buttonEvents_buttonCalls (s : SteamDeckStatePacket_t) :
    buttonEvents (buttonCalls s) = buttonCalls s := rfl

theorem buttonCalls_ne_nil (s : SteamDeckStatePacket_t) : buttonCalls s ≠ [] := by
  simp [buttonCalls]

/-- The button events of a cycle that decodes a report. -/
theorem buttonEvents_update_conforming (K : ControllerConstants)
    (ctx : SDL_DriverSteamDeck_Context) (i : UpdateInput) (h : reachesRead K ctx i)
    (hc : conforming K i.r i.report = true) :
    buttonEvents (HIDAPI_DriverSteamDeck_UpdateDevice K ctx i).effects =
      if i.report.deckState.ulButtons ≠ ctx.last_button_state
        then buttonCalls i.report.deckState else [] := by
  rw [update_read_conforming K ctx i h hc]
  simp only [buttonEvents, List.filter_append]
  have h1 := buttonEvents_watchdogCalls K ctx i
  simp only [buttonEvents] at h1
  rw [h1]
  split
  · rfl
  · rfl

/-- C1. On a cycle that reads a conforming report (a joystick is registered and the watchdog
feed, when due, succeeded), button events are emitted if and only if the report's combined 64-bit
button word differs from `last_button_state`; and whatever the next cycle's transport results,
presenting the same report again in the next cycle emits no button event. -/
theorem C1_button_events_iff_state_changed (K : ControllerConstants)
    (ctx : SDL_DriverSteamDeck_Context) (i : UpdateInput) (h : reachesRead K ctx i)
    (hc : conforming K i.r i.report = true) :
    (buttonEvents (HIDAPI_DriverSteamDeck_UpdateDevice K ctx i).effects ≠ [] ↔
      i.report.deckState.ulButtons ≠ ctx.last_button_state) ∧
    (∀ j : UpdateInput, j.report = i.report →
      buttonEvents (HIDAPI_DriverSteamDeck_UpdateDevice K
        (HIDAPI_DriverSteamDeck_UpdateDevice K ctx i).ctx j).effects = []) := by
  constructor
  · rw [buttonEvents_update_conforming K ctx i h hc]
    by_cases hb : i.report.deckState.ulButtons = ctx.last_button_state
    · simp [hb]
    · simp [hb, buttonCalls_ne_nil]
  · intro j hj
    by_cases hp : reachesRead K (HIDAPI_DriverSteamDeck_UpdateDevice K ctx i).ctx j
        ∧ conforming K j.r j.report = true
    · rw [buttonEvents_update_conforming K _ j hp.1 hp.2]
      have hl : (HIDAPI_DriverSteamDeck_UpdateDevice K ctx i).ctx.last_button_state
          = i.report.deckState.ulButtons := by
        rw [update_read_conforming K ctx i h hc]
      simp [hl, hj]
    · exact filter_eq_nil_of_forall_false _ _ fun e he =>
        ((update_not_processed K _ j hp).2.1 e he).1

/-- Witness for C1: a fresh context and a conforming report with button A held. -/
theorem C1_button_events_iff_state_changed_witness :
    reachesRead sampleConstants freshContext (sampleInput 64) ∧
    conforming sampleConstants (sampleInput 64).r (sampleInput 64).report = true ∧
    ((buttonEvents (HIDAPI_DriverSteamDeck_UpdateDevice sampleConstants freshContext
        (sampleInput 64)).effects ≠ [] ↔
      (sampleInput 64).report.deckState.ulButtons ≠ freshContext.last_button_state) ∧
    (∀ j : UpdateInput, j.report = (sampleInput 64).report →
      buttonEvents (HIDAPI_DriverSteamDeck_UpdateDevice sampleConstants
        (HIDAPI_DriverSteamDeck_UpdateDevice sampleConstants freshContext
          (sampleInput 64)).ctx j).effects = [])) :=
  ⟨by decide, by decide,
    C1_button_events_iff_state_changed sampleConstants freshContext (sampleInput 64)
      (by decide) (by decide)⟩

/-! ### C2: the sensor timestamp -/

theorem sensorTimestampOf_eq_none (k : SDL_SensorType) (e : Effect) (h : e.isSensor = false) :
    e.sensorTimestampOf k = none := by
  cases e <;> first | rfl | simp [Effect.isSensor] at h

theorem sensorTimestamps_eq_nil (k : SDL_SensorType) (l : List Effect)
    (h : ∀ e ∈ l, e.isSensor = false) : sensorTimestamps k l = [] := by
  unfold sensorTimestamps
  rw [List.filterMap_eq_nil_iff]
  intro e he
  exact sensorTimestampOf_eq_none k e (h e he)

theorem sensorTimestamps_append (k : SDL_SensorType) (a b : List Effect) :
    sensorTimestamps k (a ++ b) = sensorTimestamps k a ++ sensorTimestamps k b := by
  simp [sensorTimestamps, List.filterMap_append]

theorem sensorTimestamps_sensorCalls (k : SDL_SensorType) (t : Nat)
    (s : SteamDeckStatePacket_t) : sensorTimestamps k (sensorCalls t s) = [t] := by
  cases k <;> rfl

/-- The sample timestamps of a cycle that decodes a report. -/
theorem sensorTimestamps_update_conforming (K : ControllerConstants)
    (ctx : SDL_DriverSteamDeck_Context) (i : UpdateInput) (h : reachesRead K ctx i)
    (hc : conforming K i.r i.report = true) (k : SDL_SensorType) :
    sensorTimestamps k (HIDAPI_DriverSteamDeck_UpdateDevice K ctx i).effects =
      [(ctx.sensor_timestamp_us + ctx.update_rate_us) % 2 ^ 32] := by
  rw [update_read_conforming K ctx i h hc]
  simp only [sensorTimestamps_append, sensorTimestamps_sensorCalls]
  have h1 : sensorTimestamps k (watchdogCalls K ctx i) = [] :=
    sensorTimestamps_eq_nil k _ fun e he => (watchdogCalls_not_sink K ctx i e he).2.2.1
  have h2 : sensorTimestamps k [Effect.hid_read] = [] := rfl
  have h3 : sensorTimestamps k (axisCalls i.report.deckState) = [] := rfl
  have h4 : sensorTimestamps k
      (if i.report.deckState.ulButtons ≠ ctx.last_button_state
        then buttonCalls i.report.deckState else []) = [] := by
    split
    · rfl
    · rfl
  rw [h1, h2, h3, h4]
  rfl

/-- A cycle delivers sensor samples exactly when it decodes a report. -/
theorem sensorEvents_ne_nil_iff (K : ControllerConstants) (ctx : SDL_DriverSteamDeck_Context)
    (i : UpdateInput) :
    sensorEvents (HIDAPI_DriverSteamDeck_UpdateDevice K ctx i).effects ≠ [] ↔
      (reachesRead K ctx i ∧ conforming K i.r i.report = true) := by
  constructor
  · intro hne
    by_contra hp
    exact hne (filter_eq_nil_of_forall_false _ _ fun e he =>
      ((update_not_processed K ctx i hp).2.1 e he).2.2)
  · intro hp hnil
    rw [update_read_conforming K ctx i hp.1 hp.2] at hnil
    simp [sensorEvents, sensorCalls, Effect.isSensor] at hnil

/-- Over a run of cycles during which the 32-bit timestamp cannot wrap, the sample timestamps of
each sensor kind increase strictly and all exceed the starting timestamp. -/
theorem sensorTimestamps_run (K : ControllerConstants) (k : SDL_SensorType) :
    ∀ (inputs : List UpdateInput) (ctx : SDL_DriverSteamDeck_Context),
      0 < ctx.update_rate_us →
      ctx.sensor_timestamp_us + inputs.length * ctx.update_rate_us < 2 ^ 32 →
      (sensorTimestamps k (allEffects (updateCycles K ctx inputs))).Pairwise (· < ·) ∧
      ∀ t ∈ sensorTimestamps k (allEffects (updateCycles K ctx inputs)),
        ctx.sensor_timestamp_us < t := by
  intro inputs
  induction inputs with
  | nil =>
    intro ctx _ _
    simp [updateCycles, allEffects, sensorTimestamps]
  | cons i rest ih =>
    intro ctx hrate hwrap
    simp only [updateCycles, allEffects, sensorTimestamps_append]
    have hlen : ctx.sensor_timestamp_us + (rest.length + 1) * ctx.update_rate_us < 2 ^ 32 := by
      simpa using hwrap
    have hmul : (rest.length + 1) * ctx.update_rate_us
        = rest.length * ctx.update_rate_us + ctx.update_rate_us := by ring
    by_cases hp : reachesRead K ctx i ∧ conforming K i.r i.report = true
    · have hts : (HIDAPI_DriverSteamDeck_UpdateDevice K ctx i).ctx.sensor_timestamp_us
          = ctx.sensor_timestamp_us + ctx.update_rate_us := by
        rw [update_read_conforming K ctx i hp.1 hp.2]
        exact Nat.mod_eq_of_lt (by omega)
      have hrt : (HIDAPI_DriverSteamDeck_UpdateDevice K ctx i).ctx.update_rate_us
          = ctx.update_rate_us := by
        rw [update_read_conforming K ctx i hp.1 hp.2]
      have hmod : (ctx.sensor_timestamp_us + ctx.update_rate_us) % 2 ^ 32
          = ctx.sensor_timestamp_us + ctx.update_rate_us := Nat.mod_eq_of_lt (by omega)
      obtain ⟨ih1, ih2⟩ := ih (HIDAPI_DriverSteamDeck_UpdateDevice K ctx i).ctx
        (by rw [hrt]; exact hrate) (by rw [hrt, hts]; omega)
      rw [sensorTimestamps_update_conforming K ctx i hp.1 hp.2 k, hmod]
      rw [hts] at ih2
      constructor
      · simp only [List.singleton_append, List.pairwise_cons]
        exact ⟨ih2, ih1⟩
      · intro t ht
        simp only [List.singleton_append, List.mem_cons] at ht
        rcases ht with ht | ht
        · omega
        · have := ih2 t ht
          omega
    · obtain ⟨-, hsink, hts, -, hrt⟩ := update_not_processed K ctx i hp
      obtain ⟨ih1, ih2⟩ := ih (HIDAPI_DriverSteamDeck_UpdateDevice K ctx i).ctx
        (by rw [hrt]; exact hrate) (by rw [hrt, hts]; omega)
      rw [sensorTimestamps_eq_nil k _ fun e he => (hsink e he).2.2]
      rw [hts] at ih2
      exact ⟨by simpa using ih1, by simpa using ih2⟩

/-- C2 fails as stated: 4294967 sample periods after start-up the `Uint32` timestamp wraps, so a
cycle that emits sensor data leaves `sensor_timestamp_us` smaller than before (704 instead of
4294968000). -/
theorem C2_counterexample_timestamp_wraps :
    sensorEvents (HIDAPI_DriverSteamDeck_UpdateDevice sampleConstants lateContext
      (sampleInput 64)).effects ≠ [] ∧
    (HIDAPI_DriverSteamDeck_UpdateDevice sampleConstants lateContext
      (sampleInput 64)).ctx.sensor_timestamp_us = 704 ∧
    ¬ (lateContext.sensor_timestamp_us <
        (HIDAPI_DriverSteamDeck_UpdateDevice sampleConstants lateContext
          (sampleInput 64)).ctx.sensor_timestamp_us ∧
       (HIDAPI_DriverSteamDeck_UpdateDevice sampleConstants lateContext
          (sampleInput 64)).ctx.sensor_timestamp_us
        = lateContext.sensor_timestamp_us + lateContext.update_rate_us) := by
  decide

/-- C2, amended.  For every context `c` and cycle `j`: a cycle that emits sensor data sets
`sensor_timestamp_us` to `(old + update_rate_us) mod 2^32`, which is strictly greater than the old
value and equal to `old + update_rate_us` whenever `update_rate_us > 0` and the sum fits 32 bits;
a cycle that emits no sensor data leaves it unchanged.  Over a run of cycles from `ctx` during
which the timestamp cannot wrap, the timestamps attached to the samples of each sensor kind are
strictly increasing. -/
theorem C2_timestamp_advances_mod_2_32 (K : ControllerConstants)
    (ctx : SDL_DriverSteamDeck_Context) (inputs : List UpdateInput)
    (hrate : 0 < ctx.update_rate_us)
    (hwrap : ctx.sensor_timestamp_us + inputs.length * ctx.update_rate_us < 2 ^ 32) :
    (∀ (c : SDL_DriverSteamDeck_Context) (j : UpdateInput),
      (sensorEvents (HIDAPI_DriverSteamDeck_UpdateDevice K c j).effects ≠ [] →
        (HIDAPI_DriverSteamDeck_UpdateDevice K c j).ctx.sensor_timestamp_us
          = (c.sensor_timestamp_us + c.update_rate_us) % 2 ^ 32 ∧
        (0 < c.update_rate_us → c.sensor_timestamp_us + c.update_rate_us < 2 ^ 32 →
          c.sensor_timestamp_us
            < (HIDAPI_DriverSteamDeck_UpdateDevice K c j).ctx.sensor_timestamp_us ∧
          (HIDAPI_DriverSteamDeck_UpdateDevice K c j).ctx.sensor_timestamp_us
            = c.sensor_timestamp_us + c.update_rate_us)) ∧
      (sensorEvents (HIDAPI_DriverSteamDeck_UpdateDevice K c j).effects = [] →
        (HIDAPI_DriverSteamDeck_UpdateDevice K c j).ctx.sensor_timestamp_us
          = c.sensor_timestamp_us)) ∧
    (∀ k : SDL_SensorType,
      (sensorTimestamps k (allEffects (updateCycles K ctx inputs))).Pairwise (· < ·)) := by
  refine ⟨fun c j => ⟨fun hem => ?_, fun hno => ?_⟩, fun k =>
    (sensorTimestamps_run K k inputs ctx hrate hwrap).1⟩
  · have hp := (sensorEvents_ne_nil_iff K c j).1 hem
    have hts : (HIDAPI_DriverSteamDeck_UpdateDevice K c j).ctx.sensor_timestamp_us
        = (c.sensor_timestamp_us + c.update_rate_us) % 2 ^ 32 := by
      rw [update_read_conforming K c j hp.1 hp.2]
    refine ⟨hts, fun hr hw => ?_⟩
    rw [hts, Nat.mod_eq_of_lt hw]
    exact ⟨by omega, rfl⟩
  · have hp : ¬ (reachesRead K c j ∧ conforming K j.r j.report = true) :=
      fun hp => (sensorEvents_ne_nil_iff K c j).2 hp hno
    exact (update_not_processed K c j hp).2.2.1

/-- Witness for C2: three cycles from a fresh context (report, nothing read, report). -/
theorem C2_timestamp_advances_mod_2_32_witness :
    0 < freshContext.update_rate_us ∧
    freshContext.sensor_timestamp_us
      + [sampleInput 64, sampleInput 0, sampleInput 64].length * freshContext.update_rate_us
        < 2 ^ 32 ∧
    (∀ k : SDL_SensorType,
      (sensorTimestamps k (allEffects (updateCycles sampleConstants freshContext
        [sampleInput 64, sampleInput 0, sampleInput 64]))).Pairwise (· < ·)) :=
  ⟨by decide, by decide,
    (C2_timestamp_advances_mod_2_32 sampleConstants freshContext
      [sampleInput 64, sampleInput 0, sampleInput 64] (by decide) (by decide)).2⟩

/-! ### C3, C4, C5: reads that deliver no report -/

theorem sinkEvents_eq_nil (l : List Effect)
    (h : ∀ e ∈ l, e.isButton = false ∧ e.isAxis = false ∧ e.isSensor = false) :
    sinkEvents l = [] := by
  unfold sinkEvents
  rw [List.filter_eq_nil_iff]
  intro e he
  obtain ⟨h1, h2, h3⟩ := h e he
  simp [h1, h2, h3]

theorem disconnects_watchdogCalls (K : ControllerConstants) (ctx : SDL_DriverSteamDeck_Context)
    (i : UpdateInput) : disconnects (watchdogCalls K ctx i) = 0 := by
  unfold disconnects
  rw [List.count_eq_zero]
  intro hmem
  exact (watchdogCalls_not_sink K ctx i _ hmem).2.2.2.1 rfl

theorem watchdogNext_eq (c : Nat) : watchdogNext c = if c > 200 then 0 else c + 1 := by
  unfold watchdogNext
  split
  · rfl
  · exact Nat.mod_eq_of_lt (by omega)

theorem conforming_iff (K : ControllerConstants) (r : Int) (p : ValveInReport_t) :
    conforming K r p = true ↔
      (r = 64 ∧ p.header.unReportVersion = K.k_ValveInReportMsgVersion ∧
        p.header.ucType = K.ID_CONTROLLER_DECK_STATE ∧ p.header.ucLength = 64) := by
  unfold conforming
  simp only [Bool.and_eq_true, decide_eq_true_eq]
  tauto

/-- C3 fails as stated: with a registered joystick and a zero-byte read the cycle returns
`SDL_FALSE`, not success. -/
theorem C3_counterexample_zero_read_returns_false :
    reachesRead sampleConstants freshContext (sampleInput 0) ∧
    (sampleInput 0).r = 0 ∧
    (HIDAPI_DriverSteamDeck_UpdateDevice sampleConstants freshContext (sampleInput 0)).ret
      = false := by
  decide

/-- C3, amended.  With a registered joystick (and the watchdog feed, when due, successful), a
zero-byte read makes the cycle return `SDL_FALSE`; it delivers no button, axis or sensor event
and no disconnect signal, and changes no field of the context other than `watchdog_counter`,
which is incremented, or reset to 0 on a cycle that entered with the counter above 200. -/
theorem C3_zero_read_fails_quietly (K : ControllerConstants) (ctx : SDL_DriverSteamDeck_Context)
    (i : UpdateInput) (h : reachesRead K ctx i) (hr : i.r = 0) :
    (HIDAPI_DriverSteamDeck_UpdateDevice K ctx i).ret = false ∧
    sinkEvents (HIDAPI_DriverSteamDeck_UpdateDevice K ctx i).effects = [] ∧
    disconnects (HIDAPI_DriverSteamDeck_UpdateDevice K ctx i).effects = 0 ∧
    (HIDAPI_DriverSteamDeck_UpdateDevice K ctx i).ctx =
      { ctx with
        watchdog_counter :=
          if ctx.watchdog_counter > 200 then 0 else ctx.watchdog_counter + 1 } := by
  have hp : ¬ (reachesRead K ctx i ∧ conforming K i.r i.report = true) := by
    rintro ⟨-, hc⟩
    have := ((conforming_iff K i.r i.report).1 hc).1
    omega
  obtain ⟨hret, hsink, -, -, -⟩ := update_not_processed K ctx i hp
  refine ⟨hret, sinkEvents_eq_nil _ hsink, ?_, ?_⟩
  · rw [update_read_zero K ctx i h hr]
    show disconnects (watchdogCalls K ctx i ++ [Effect.hid_read]) = 0
    unfold disconnects
    rw [List.count_append]
    have := disconnects_watchdogCalls K ctx i
    unfold disconnects at this
    rw [this]
    rfl
  · rw [update_read_zero K ctx i h hr, watchdogNext_eq]

/-- Witness for C3: a zero-byte read on the cycle in which the feed is due. -/
theorem C3_zero_read_fails_quietly_witness :
    reachesRead sampleConstants { freshContext with watchdog_counter := 201 } (sampleInput 0) ∧
    (sampleInput 0).r = 0 ∧
    (HIDAPI_DriverSteamDeck_UpdateDevice sampleConstants
      { freshContext with watchdog_counter := 201 } (sampleInput 0)).ctx =
      { freshContext with watchdog_counter := 0 } :=
  ⟨by decide, by decide,
    (C3_zero_read_fails_quietly sampleConstants { freshContext with watchdog_counter := 201 }
      (sampleInput 0) (by decide) (by decide)).2.2.2⟩

/-- C4 fails as stated: a 63-byte read (header tags as expected) makes the cycle return
`SDL_FALSE`, not success. -/
theorem C4_counterexample_short_read_returns_false :
    reachesRead sampleConstants freshContext (sampleInput 63) ∧
    0 < (sampleInput 63).r ∧
    conforming sampleConstants (sampleInput 63).r (sampleInput 63).report = false ∧
    (HIDAPI_DriverSteamDeck_UpdateDevice sampleConstants freshContext (sampleInput 63)).ret
      = false := by
  decide

/-- C4, amended.  When the read returns a positive byte count and one of the four conditions
fails (byte count 64, version tag `k_ValveInReportMsgVersion`, type tag
`ID_CONTROLLER_DECK_STATE`, length field 64), the cycle returns `SDL_FALSE`, delivers no button,
axis or sensor event, sends no disconnect signal and leaves `sensor_timestamp_us` and
`last_button_state` unchanged.  The report is processed exactly when all four hold: only then
does the cycle return `SDL_TRUE` or deliver any event, and when they hold it both returns
`SDL_TRUE` and delivers events, namely the button events (if the button word changed), the six
axis events and the two sensor samples, in this order. -/
theorem C4_nonconforming_read_fails_quietly (K : ControllerConstants)
    (ctx : SDL_DriverSteamDeck_Context) (i : UpdateInput) (h : reachesRead K ctx i)
    (hr : 0 < i.r) :
    (¬ (i.r = 64 ∧ i.report.header.unReportVersion = K.k_ValveInReportMsgVersion ∧
          i.report.header.ucType = K.ID_CONTROLLER_DECK_STATE ∧
          i.report.header.ucLength = 64) →
      (HIDAPI_DriverSteamDeck_UpdateDevice K ctx i).ret = false ∧
      sinkEvents (HIDAPI_DriverSteamDeck_UpdateDevice K ctx i).effects = [] ∧
      disconnects (HIDAPI_DriverSteamDeck_UpdateDevice K ctx i).effects = 0 ∧
      (HIDAPI_DriverSteamDeck_UpdateDevice K ctx i).ctx.sensor_timestamp_us
        = ctx.sensor_timestamp_us ∧
      (HIDAPI_DriverSteamDeck_UpdateDevice K ctx i).ctx.last_button_state
        = ctx.last_button_state) ∧
    (((HIDAPI_DriverSteamDeck_UpdateDevice K ctx i).ret = true ∨
        sinkEvents (HIDAPI_DriverSteamDeck_UpdateDevice K ctx i).effects ≠ []) ↔
      (i.r = 64 ∧ i.report.header.unReportVersion = K.k_ValveInReportMsgVersion ∧
        i.report.header.ucType = K.ID_CONTROLLER_DECK_STATE ∧
        i.report.header.ucLength = 64)) ∧
    ((i.r = 64 ∧ i.report.header.unReportVersion = K.k_ValveInReportMsgVersion ∧
        i.report.header.ucType = K.ID_CONTROLLER_DECK_STATE ∧
        i.report.header.ucLength = 64) →
      (HIDAPI_DriverSteamDeck_UpdateDevice K ctx i).ret = true ∧
      sinkEvents (HIDAPI_DriverSteamDeck_UpdateDevice K ctx i).effects ≠ [] ∧
      sinkEvents (HIDAPI_DriverSteamDeck_UpdateDevice K ctx i).effects
        = (if i.report.deckState.ulButtons ≠ ctx.last_button_state
            then buttonCalls i.report.deckState else [])
          ++ axisCalls i.report.deckState
          ++ sensorCalls ((ctx.sensor_timestamp_us + ctx.update_rate_us) % 2 ^ 32)
               i.report.deckState) := by
  have key : ¬ (i.r = 64 ∧ i.report.header.unReportVersion = K.k_ValveInReportMsgVersion ∧
          i.report.header.ucType = K.ID_CONTROLLER_DECK_STATE ∧
          i.report.header.ucLength = 64) →
      (HIDAPI_DriverSteamDeck_UpdateDevice K ctx i).ret = false ∧
      sinkEvents (HIDAPI_DriverSteamDeck_UpdateDevice K ctx i).effects = [] ∧
      disconnects (HIDAPI_DriverSteamDeck_UpdateDevice K ctx i).effects = 0 ∧
      (HIDAPI_DriverSteamDeck_UpdateDevice K ctx i).ctx.sensor_timestamp_us
        = ctx.sensor_timestamp_us ∧
      (HIDAPI_DriverSteamDeck_UpdateDevice K ctx i).ctx.last_button_state
        = ctx.last_button_state := by
    intro hbad
    have hc : conforming K i.r i.report = false := by
      cases hcc : conforming K i.r i.report
      · rfl
      · exact absurd ((conforming_iff K i.r i.report).1 hcc) hbad
    have hp : ¬ (reachesRead K ctx i ∧ conforming K i.r i.report = true) := by
      rintro ⟨-, hc2⟩
      rw [hc] at hc2
      exact Bool.noConfusion hc2
    obtain ⟨hret, hsink, hts, hlb, -⟩ := update_not_processed K ctx i hp
    refine ⟨hret, sinkEvents_eq_nil _ hsink, ?_, hts, hlb⟩
    rw [update_read_nonconforming K ctx i h hr hc]
    show disconnects (watchdogCalls K ctx i ++ [Effect.hid_read]) = 0
    unfold disconnects
    rw [List.count_append]
    have := disconnects_watchdogCalls K ctx i
    unfold disconnects at this
    rw [this]
    rfl
  have good : (i.r = 64 ∧ i.report.header.unReportVersion = K.k_ValveInReportMsgVersion ∧
        i.report.header.ucType = K.ID_CONTROLLER_DECK_STATE ∧
        i.report.header.ucLength = 64) →
      (HIDAPI_DriverSteamDeck_UpdateDevice K ctx i).ret = true ∧
      sinkEvents (HIDAPI_DriverSteamDeck_UpdateDevice K ctx i).effects ≠ [] ∧
      sinkEvents (HIDAPI_DriverSteamDeck_UpdateDevice K ctx i).effects
        = (if i.report.deckState.ulButtons ≠ ctx.last_button_state
            then buttonCalls i.report.deckState else [])
          ++ axisCalls i.report.deckState
          ++ sensorCalls ((ctx.sensor_timestamp_us + ctx.update_rate_us) % 2 ^ 32)
               i.report.deckState := by
    intro hgood
    have hev : sinkEvents (HIDAPI_DriverSteamDeck_UpdateDevice K ctx i).effects
        = (if i.report.deckState.ulButtons ≠ ctx.last_button_state
            then buttonCalls i.report.deckState else [])
          ++ axisCalls i.report.deckState
          ++ sensorCalls ((ctx.sensor_timestamp_us + ctx.update_rate_us) % 2 ^ 32)
               i.report.deckState := by
      rw [update_read_conforming K ctx i h ((conforming_iff K i.r i.report).2 hgood)]
      have h1 : sinkEvents (watchdogCalls K ctx i) = [] :=
        sinkEvents_eq_nil _ fun e he =>
          ⟨(watchdogCalls_not_sink K ctx i e he).1, (watchdogCalls_not_sink K ctx i e he).2.1,
            (watchdogCalls_not_sink K ctx i e he).2.2.1⟩
      have h2 : sinkEvents (if i.report.deckState.ulButtons ≠ ctx.last_button_state
            then buttonCalls i.report.deckState else [])
          = (if i.report.deckState.ulButtons ≠ ctx.last_button_state
            then buttonCalls i.report.deckState else []) := by
        split
        · rfl
        · rfl
      have h3 : sinkEvents (axisCalls i.report.deckState) = axisCalls i.report.deckState := rfl
      have h4 : ∀ t, sinkEvents (sensorCalls t i.report.deckState)
          = sensorCalls t i.report.deckState := fun _ => rfl
      have happ : ∀ a b : List Effect, sinkEvents (a ++ b) = sinkEvents a ++ sinkEvents b :=
        fun a b => List.filter_append a b
      show sinkEvents (watchdogCalls K ctx i ++ [Effect.hid_read]
          ++ (if i.report.deckState.ulButtons ≠ ctx.last_button_state
                then buttonCalls i.report.deckState else [])
          ++ axisCalls i.report.deckState
          ++ sensorCalls ((ctx.sensor_timestamp_us + ctx.update_rate_us) % 2 ^ 32)
               i.report.deckState) = _
      rw [happ, happ, happ, happ, h1, h2, h3, h4]
      rfl
    refine ⟨?_, ?_, hev⟩
    · rw [update_read_conforming K ctx i h ((conforming_iff K i.r i.report).2 hgood)]
    · rw [hev]
      simp [axisCalls]
  refine ⟨key, ⟨?_, ?_⟩, good⟩
  · intro hproc
    by_contra hbad
    obtain ⟨hret, hsink, -⟩ := key hbad
    rcases hproc with hp | hp
    · rw [hret] at hp
      exact Bool.noConfusion hp
    · exact hp hsink
  · intro hgood
    exact Or.inl (good hgood).1

/-- Witness for C4: a 64-byte read whose version tag is wrong is ignored, and the same read
with the expected tags is processed. -/
theorem C4_nonconforming_read_fails_quietly_witness :
    reachesRead sampleConstants freshContext misTaggedInput ∧
    0 < misTaggedInput.r ∧
    ¬ (misTaggedInput.r = 64 ∧
        misTaggedInput.report.header.unReportVersion
          = sampleConstants.k_ValveInReportMsgVersion ∧
        misTaggedInput.report.header.ucType = sampleConstants.ID_CONTROLLER_DECK_STATE ∧
        misTaggedInput.report.header.ucLength = 64) ∧
    (HIDAPI_DriverSteamDeck_UpdateDevice sampleConstants freshContext misTaggedInput).ret
      = false ∧
    reachesRead sampleConstants freshContext (sampleInput 64) ∧
    0 < (sampleInput 64).r ∧
    (HIDAPI_DriverSteamDeck_UpdateDevice sampleConstants freshContext (sampleInput 64)).ret
      = true ∧
    sinkEvents (HIDAPI_DriverSteamDeck_UpdateDevice sampleConstants freshContext
      (sampleInput 64)).effects ≠ [] :=
  ⟨by decide, by decide, by decide,
    ((C4_nonconforming_read_fails_quietly sampleConstants freshContext misTaggedInput
      (by decide) (by decide)).1 (by decide)).1,
    by decide, by decide,
    ((C4_nonconforming_read_fails_quietly sampleConstants freshContext (sampleInput 64)
      (by decide) (by decide)).2.2 (by decide)).1,
    ((C4_nonconforming_read_fails_quietly sampleConstants freshContext (sampleInput 64)
      (by decide) (by decide)).2.2 (by decide)).2.1⟩

/-- C5. With a registered joystick (and the watchdog feed, when due, successful), a negative
result of the steady-state read makes the cycle signal the joystick as disconnected exactly once
and return `SDL_FALSE`; no button, axis or sensor event is delivered and `sensor_timestamp_us` and
`last_button_state` are unchanged. -/
theorem C5_negative_read_disconnects (K : ControllerConstants)
    (ctx : SDL_DriverSteamDeck_Context) (i : UpdateInput) (h : reachesRead K ctx i)
    (hr : i.r < 0) :
    disconnects (HIDAPI_DriverSteamDeck_UpdateDevice K ctx i).effects = 1 ∧
    (HIDAPI_DriverSteamDeck_UpdateDevice K ctx i).ret = false ∧
    sinkEvents (HIDAPI_DriverSteamDeck_UpdateDevice K ctx i).effects = [] ∧
    (HIDAPI_DriverSteamDeck_UpdateDevice K ctx i).ctx.sensor_timestamp_us
      = ctx.sensor_timestamp_us ∧
    (HIDAPI_DriverSteamDeck_UpdateDevice K ctx i).ctx.last_button_state
      = ctx.last_button_state := by
  have hp : ¬ (reachesRead K ctx i ∧ conforming K i.r i.report = true) := by
    rintro ⟨-, hc⟩
    have := ((conforming_iff K i.r i.report).1 hc).1
    omega
  obtain ⟨hret, hsink, hts, hlb, -⟩ := update_not_processed K ctx i hp
  refine ⟨?_, hret, sinkEvents_eq_nil _ hsink, hts, hlb⟩
  rw [update_read_negative K ctx i h hr]
  show disconnects (watchdogCalls K ctx i ++ [Effect.hid_read, Effect.JoystickDisconnected]) = 1
  unfold disconnects
  rw [List.count_append]
  have := disconnects_watchdogCalls K ctx i
  unfold disconnects at this
  rw [this]
  rfl

/-- Witness for C5: the read returns -1 on a fresh context. -/
theorem C5_negative_read_disconnects_witness :
    reachesRead sampleConstants freshContext (sampleInput (-1)) ∧
    (sampleInput (-1)).r < 0 ∧
    disconnects (HIDAPI_DriverSteamDeck_UpdateDevice sampleConstants freshContext
      (sampleInput (-1))).effects = 1 :=
  ⟨by decide, by decide,
    (C5_negative_read_disconnects sampleConstants freshContext (sampleInput (-1))
      (by decide) (by decide)).1⟩

/-! ### C6: the handshake fails closed -/

/-- C6. If either feature-report write of `DisableDeckLizardMode` returns a byte count other than
`HID_FEATURE_REPORT_BYTES + 1`, then `DisableDeckLizardMode` returns false and
`HIDAPI_DriverSteamDeck_InitDevice` returns false without calling `HIDAPI_JoystickConnected`,
whatever the other results are; when the first write fails, that write is the only transport call
of the handshake: no second write and no feature-report read is issued. -/
theorem C6_handshake_fails_closed (K : ControllerConstants) (i : InitInput)
    (hbad : i.rc1 ≠ sizeof_buffer K ∨ i.rc2 ≠ sizeof_buffer K) :
    (DisableDeckLizardMode K i.rc1 i.rc2 i.reply).1 = false ∧
    (HIDAPI_DriverSteamDeck_InitDevice K i).ret = false ∧
    Effect.JoystickConnected ∉ (HIDAPI_DriverSteamDeck_InitDevice K i).effects ∧
    (i.rc1 ≠ sizeof_buffer K →
      (DisableDeckLizardMode K i.rc1 i.rc2 i.reply).2
          = [Effect.hid_send_feature_report (clearDigitalMappings K)] ∧
      ((HIDAPI_DriverSteamDeck_InitDevice K i).effects.filter Effect.isSend).length ≤ 1 ∧
      Effect.hid_get_feature_report ∉ (HIDAPI_DriverSteamDeck_InitDevice K i).effects) := by
  have hd : (DisableDeckLizardMode K i.rc1 i.rc2 i.reply).1 = false := by
    unfold DisableDeckLizardMode
    by_cases h1 : i.rc1 = sizeof_buffer K
    · have h2 : i.rc2 ≠ sizeof_buffer K := by
        rcases hbad with hb | hb
        · exact absurd h1 hb
        · exact hb
      simp [h1, h2]
    · simp [h1]
  have hmem : ∀ e ∈ (DisableDeckLizardMode K i.rc1 i.rc2 i.reply).2,
      e ≠ Effect.JoystickConnected := by
    unfold DisableDeckLizardMode
    by_cases h1 : i.rc1 = sizeof_buffer K <;> by_cases h2 : i.rc2 = sizeof_buffer K <;>
      simp [h1, h2]
  refine ⟨hd, ?_, ?_, ?_⟩
  · unfold HIDAPI_DriverSteamDeck_InitDevice
    by_cases hc : i.calloc_ok = true <;> by_cases hs : i.size = 0 <;> simp [hc, hs, hd]
  · unfold HIDAPI_DriverSteamDeck_InitDevice
    by_cases hc : i.calloc_ok = true <;> by_cases hs : i.size = 0 <;> simp [hc, hs, hd]
    intro hm
    exact hmem _ hm rfl
  · intro h1
    have he : (DisableDeckLizardMode K i.rc1 i.rc2 i.reply).2
        = [Effect.hid_send_feature_report (clearDigitalMappings K)] := by
      unfold DisableDeckLizardMode clearDigitalMappings
      simp [h1]
    refine ⟨he, ?_, ?_⟩
    · unfold HIDAPI_DriverSteamDeck_InitDevice
      by_cases hc : i.calloc_ok = true <;> by_cases hs : i.size = 0 <;>
        simp [hc, hs, hd, he, Effect.isSend, List.filter]
    · unfold HIDAPI_DriverSteamDeck_InitDevice
      by_cases hc : i.calloc_ok = true <;> by_cases hs : i.size = 0 <;>
        simp [hc, hs, hd, he]

/-- Witness for C6: the first write succeeds (65 bytes), the second returns 64. -/
theorem C6_handshake_fails_closed_witness :
    ((sampleInit 65 64).rc1 ≠ sizeof_buffer sampleConstants ∨
      (sampleInit 65 64).rc2 ≠ sizeof_buffer sampleConstants) ∧
    (HIDAPI_DriverSteamDeck_InitDevice sampleConstants (sampleInit 65 64)).ret = false ∧
    Effect.JoystickConnected ∉
      (HIDAPI_DriverSteamDeck_InitDevice sampleConstants (sampleInit 65 64)).effects :=
  ⟨by decide,
    (C6_handshake_fails_closed sampleConstants (sampleInit 65 64) (by decide)).2.1,
    (C6_handshake_fails_closed sampleConstants (sampleInit 65 64) (by decide)).2.2.1⟩

/-! ### C7: the watchdog period -/

theorem reachesRead_of_feedsSucceed (K : ControllerConstants)
    (ctx : SDL_DriverSteamDeck_Context) (i : UpdateInput) (h : feedsSucceed K i) :
    reachesRead K ctx i :=
  ⟨h.1, h.2.1, fun _ => h.2.2⟩

theorem watchdogCalls_any_isSend (K : ControllerConstants) (ctx : SDL_DriverSteamDeck_Context)
    (i : UpdateInput) :
    (watchdogCalls K ctx i).any Effect.isSend = decide (ctx.watchdog_counter > 200) := by
  unfold watchdogCalls FeedDeckLizardWatchdog
  by_cases hd : ctx.watchdog_counter > 200
  · by_cases h1 : i.feed_rc1 = sizeof_buffer K <;> by_cases h2 : i.feed_rc2 = sizeof_buffer K <;>
      simp [hd, h1, h2, Effect.isSend]
  · simp [hd]

/-- On a cycle that reaches the read, the counter steps as `watchdogNext` and feature reports are
written exactly when the counter was above 200 on entry. -/
theorem update_watchdog_step (K : ControllerConstants) (ctx : SDL_DriverSteamDeck_Context)
    (i : UpdateInput) (h : reachesRead K ctx i) :
    (HIDAPI_DriverSteamDeck_UpdateDevice K ctx i).ctx.watchdog_counter
      = watchdogNext ctx.watchdog_counter ∧
    (HIDAPI_DriverSteamDeck_UpdateDevice K ctx i).effects.any Effect.isSend
      = decide (ctx.watchdog_counter > 200) := by
  have hw := watchdogCalls_any_isSend K ctx i
  rcases lt_trichotomy i.r 0 with hr | hr | hr
  · rw [update_read_negative K ctx i h hr]
    refine ⟨rfl, ?_⟩
    simp only [List.any_append, hw]
    simp [Effect.isSend]
  · rw [update_read_zero K ctx i h hr]
    refine ⟨rfl, ?_⟩
    simp only [List.any_append, hw]
    simp [Effect.isSend]
  · cases hc : conforming K i.r i.report
    · rw [update_read_nonconforming K ctx i h hr hc]
      refine ⟨rfl, ?_⟩
      simp only [List.any_append, hw]
      simp [Effect.isSend]
    · rw [update_read_conforming K ctx i h hc]
      refine ⟨rfl, ?_⟩
      simp only [List.any_append, hw]
      have h1 : (if i.report.deckState.ulButtons ≠ ctx.last_button_state
          then buttonCalls i.report.deckState else []).any Effect.isSend = false := by
        split
        · rfl
        · rfl
      have h2 : (axisCalls i.report.deckState).any Effect.isSend = false := rfl
      have h3 : ∀ t, (sensorCalls t i.report.deckState).any Effect.isSend = false :=
        fun _ => rfl
      rw [h1, h2, h3]
      simp [Effect.isSend]

/-- Counter and feed along a run of cycles with a registered joystick and successful feeds. -/
theorem watchdog_run (K : ControllerConstants) :
    ∀ (inputs : List UpdateInput) (ctx : SDL_DriverSteamDeck_Context),
      ctx.watchdog_counter ≤ 201 →
      (∀ i ∈ inputs, feedsSucceed K i) →
      ∀ (n : Nat) (res : UpdateResult), (updateCycles K ctx inputs)[n]? = some res →
        (res.effects.any Effect.isSend = true ↔ (ctx.watchdog_counter + n) % 202 = 201) ∧
        res.ctx.watchdog_counter = (ctx.watchdog_counter + n + 1) % 202 := by
  intro inputs
  induction inputs with
  | nil =>
    intro ctx _ _ n res hres
    simp [updateCycles] at hres
  | cons i rest ih =>
    intro ctx hle hgood n res hres
    have hi : feedsSucceed K i := hgood i (List.mem_cons_self _ _)
    obtain ⟨hwc, hsend⟩ := update_watchdog_step K ctx i (reachesRead_of_feedsSucceed K ctx i hi)
    rw [watchdogNext_eq] at hwc
    cases n with
    | zero =>
      simp only [updateCycles, List.getElem?_cons_zero, Option.some.injEq] at hres
      subst hres
      rw [hsend, hwc]
      constructor
      · simp only [decide_eq_true_eq]
        omega
      · split <;> omega
    | succ m =>
      simp only [updateCycles, List.getElem?_cons_succ] at hres
      have hle2 : (HIDAPI_DriverSteamDeck_UpdateDevice K ctx i).ctx.watchdog_counter ≤ 201 := by
        rw [hwc]
        split <;> omega
      obtain ⟨ih1, ih2⟩ := ih (HIDAPI_DriverSteamDeck_UpdateDevice K ctx i).ctx hle2
        (fun j hj => hgood j (List.mem_cons_of_mem _ hj)) m res hres
      rw [hwc] at ih1 ih2
      constructor
      · rw [ih1]
        split <;> omega
      · rw [ih2]
        split <;> omega

set_option maxRecDepth 200000 in
/-- C7 fails as stated: from a fresh context, with a registered joystick and feeds that would
succeed, none of the first 201 cycles feeds the watchdog (in particular not the 200th); the first
feed runs on cycle 202. -/
theorem C7_counterexample_first_feed_on_cycle_202 :
    (∀ i ∈ List.replicate 202 (sampleInput 64), feedsSucceed sampleConstants i) ∧
    freshContext.watchdog_counter = 0 ∧
    (updateCycles sampleConstants freshContext (List.replicate 202 (sampleInput 64))).map
        (fun res => res.effects.any Effect.isSend)
      = List.replicate 201 false ++ [true] := by
  refine ⟨fun i hi => ?_, rfl, ?_⟩
  · rw [List.eq_of_mem_replicate hi]
    decide
  · decide

/-- C7, amended.  Starting from a context with `watchdog_counter = 0` and running cycles with a
registered joystick and successful feeds, the watchdog feed is performed once every 202 poll
cycles: cycle number `n + 1` writes feature reports exactly when `n % 202 = 201` (the cycle
entered with the counter at 201, the only value above 200 it takes), the counter is 0 after such
a cycle, and in general the counter after cycle `n + 1` is `(n + 1) % 202`; no feed runs on any
other cycle. -/
theorem C7_feed_every_202_cycles (K : ControllerConstants)
    (ctx : SDL_DriverSteamDeck_Context) (inputs : List UpdateInput)
    (h0 : ctx.watchdog_counter = 0) (hgood : ∀ i ∈ inputs, feedsSucceed K i) :
    ∀ (n : Nat) (res : UpdateResult), (updateCycles K ctx inputs)[n]? = some res →
      (res.effects.any Effect.isSend = true ↔ n % 202 = 201) ∧
      (n % 202 = 201 → res.ctx.watchdog_counter = 0) ∧
      res.ctx.watchdog_counter = (n + 1) % 202 ∧
      res.ctx.watchdog_counter ≤ 201 := by
  intro n res hres
  obtain ⟨h1, h2⟩ := watchdog_run K inputs ctx (by omega) hgood n res hres
  rw [h0] at h1 h2
  simp only [Nat.zero_add] at h1 h2
  refine ⟨h1, ?_, h2, ?_⟩
  · intro hn
    rw [h2]
    omega
  · rw [h2]
    omega

/-- Witness for C7: two cycles from a fresh context (nothing read, then a report); the second
one is cycle number 2, writes no feature report and leaves the counter at 2. -/
theorem C7_feed_every_202_cycles_witness :
    freshContext.watchdog_counter = 0 ∧
    (∀ i ∈ [sampleInput 0, sampleInput 64], feedsSucceed sampleConstants i) ∧
    (updateCycles sampleConstants freshContext [sampleInput 0, sampleInput 64])[1]?
      = some (HIDAPI_DriverSteamDeck_UpdateDevice sampleConstants
          { freshContext with watchdog_counter := 1 } (sampleInput 64)) ∧
    ((HIDAPI_DriverSteamDeck_UpdateDevice sampleConstants
        { freshContext with watchdog_counter := 1 } (sampleInput 64)).effects.any Effect.isSend
        = true ↔ 1 % 202 = 201) ∧
    (HIDAPI_DriverSteamDeck_UpdateDevice sampleConstants
        { freshContext with watchdog_counter := 1 } (sampleInput 64)).ctx.watchdog_counter
      = (1 + 1) % 202 :=
  ⟨rfl, by decide, by decide,
    (C7_feed_every_202_cycles sampleConstants freshContext [sampleInput 0, sampleInput 64]
      rfl (by decide) 1 _ (by decide)).1,
    (C7_feed_every_202_cycles sampleConstants freshContext [sampleInput 0, sampleInput 64]
      rfl (by decide) 1 _ (by decide)).2.2.1⟩

/-! ### C8, C9, C10: axis and sensor output of a decoded report -/

theorem toSint16_of_range (v : Int) (h1 : -32768 ≤ v) (h2 : v ≤ 32767) : toSint16 v = v := by
  unfold toSint16
  omega

/-- The axis events of a cycle that decodes a report are those of lines 300-312. -/
theorem axis_mem_update_conforming (K : ControllerConstants)
    (ctx : SDL_DriverSteamDeck_Context) (i : UpdateInput) (h : reachesRead K ctx i)
    (hc : conforming K i.r i.report = true) (a : SDL_GameControllerAxis) (v : Int) :
    Effect.JoystickAxis a v ∈ (HIDAPI_DriverSteamDeck_UpdateDevice K ctx i).effects ↔
      Effect.JoystickAxis a v ∈ axisCalls i.report.deckState := by
  rw [update_read_conforming K ctx i h hc]
  have h1 : Effect.JoystickAxis a v ∉ watchdogCalls K ctx i := by
    intro hm
    have := (watchdogCalls_not_sink K ctx i _ hm).2.1
    simp [Effect.isAxis] at this
  have h2 : Effect.JoystickAxis a v ∉
      (if i.report.deckState.ulButtons ≠ ctx.last_button_state
        then buttonCalls i.report.deckState else []) := by
    split
    · simp [buttonCalls, SDL_PrivateJoystickButton]
    · simp
  have h3 : ∀ t, Effect.JoystickAxis a v ∉ sensorCalls t i.report.deckState := by
    intro t
    simp [sensorCalls]
  simp only [List.mem_append, h1, h2, h3, false_or, or_false]
  simp

/-- C8. On a cycle that decodes a conforming report, a raw trigger value `raw` in `0..32767` is
emitted on its trigger axis (left and right alike) as exactly `raw * 2 - 32768`, a value in the
signed 16-bit range; raw 0 gives -32768 and raw 32767 gives 32766. -/
theorem C8_trigger_rescale_exact (K : ControllerConstants)
    (ctx : SDL_DriverSteamDeck_Context) (i : UpdateInput) (h : reachesRead K ctx i)
    (hc : conforming K i.r i.report = true) :
    (i.report.deckState.sTriggerRawL ≤ 32767 →
      (∀ v : Int, Effect.JoystickAxis .TRIGGERLEFT v
          ∈ (HIDAPI_DriverSteamDeck_UpdateDevice K ctx i).effects ↔
        v = (i.report.deckState.sTriggerRawL : Int) * 2 - 32768) ∧
      -32768 ≤ (i.report.deckState.sTriggerRawL : Int) * 2 - 32768 ∧
      (i.report.deckState.sTriggerRawL : Int) * 2 - 32768 ≤ 32767) ∧
    (i.report.deckState.sTriggerRawR ≤ 32767 →
      (∀ v : Int, Effect.JoystickAxis .TRIGGERRIGHT v
          ∈ (HIDAPI_DriverSteamDeck_UpdateDevice K ctx i).effects ↔
        v = (i.report.deckState.sTriggerRawR : Int) * 2 - 32768) ∧
      -32768 ≤ (i.report.deckState.sTriggerRawR : Int) * 2 - 32768 ∧
      (i.report.deckState.sTriggerRawR : Int) * 2 - 32768 ≤ 32767) ∧
    (i.report.deckState.sTriggerRawL = 0 → Effect.JoystickAxis .TRIGGERLEFT (-32768)
      ∈ (HIDAPI_DriverSteamDeck_UpdateDevice K ctx i).effects) ∧
    (i.report.deckState.sTriggerRawL = 32767 → Effect.JoystickAxis .TRIGGERLEFT 32766
      ∈ (HIDAPI_DriverSteamDeck_UpdateDevice K ctx i).effects) ∧
    (i.report.deckState.sTriggerRawR = 0 → Effect.JoystickAxis .TRIGGERRIGHT (-32768)
      ∈ (HIDAPI_DriverSteamDeck_UpdateDevice K ctx i).effects) ∧
    (i.report.deckState.sTriggerRawR = 32767 → Effect.JoystickAxis .TRIGGERRIGHT 32766
      ∈ (HIDAPI_DriverSteamDeck_UpdateDevice K ctx i).effects) := by
  have hL : i.report.deckState.sTriggerRawL ≤ 32767 →
      ∀ v : Int, Effect.JoystickAxis .TRIGGERLEFT v
          ∈ (HIDAPI_DriverSteamDeck_UpdateDevice K ctx i).effects ↔
        v = (i.report.deckState.sTriggerRawL : Int) * 2 - 32768 := by
    intro hle v
    rw [axis_mem_update_conforming K ctx i h hc]
    simp only [axisCalls, SDL_PrivateJoystickAxis]
    rw [toSint16_of_range ((i.report.deckState.sTriggerRawL : Int) * 2 - 32768)
      (by omega) (by omega)]
    simp
  have hR : i.report.deckState.sTriggerRawR ≤ 32767 →
      ∀ v : Int, Effect.JoystickAxis .TRIGGERRIGHT v
          ∈ (HIDAPI_DriverSteamDeck_UpdateDevice K ctx i).effects ↔
        v = (i.report.deckState.sTriggerRawR : Int) * 2 - 32768 := by
    intro hle v
    rw [axis_mem_update_conforming K ctx i h hc]
    simp only [axisCalls, SDL_PrivateJoystickAxis]
    rw [toSint16_of_range ((i.report.deckState.sTriggerRawR : Int) * 2 - 32768)
      (by omega) (by omega)]
    simp
  refine ⟨fun hle => ⟨hL hle, by omega, by omega⟩, fun hle => ⟨hR hle, by omega, by omega⟩,
    fun h0 => ?_, fun h1 => ?_, fun h0 => ?_, fun h1 => ?_⟩
  · exact (hL (by omega) _).2 (by rw [h0]; rfl)
  · exact (hL (by omega) _).2 (by rw [h1]; rfl)
  · exact (hR (by omega) _).2 (by rw [h0]; rfl)
  · exact (hR (by omega) _).2 (by rw [h1]; rfl)

/-- Witness for C8: the sample report has left trigger 0 and right trigger 32767. -/
theorem C8_trigger_rescale_exact_witness :
    reachesRead sampleConstants freshContext (sampleInput 64) ∧
    conforming sampleConstants (sampleInput 64).r (sampleInput 64).report = true ∧
    Effect.JoystickAxis .TRIGGERLEFT (-32768)
      ∈ (HIDAPI_DriverSteamDeck_UpdateDevice sampleConstants freshContext
          (sampleInput 64)).effects ∧
    Effect.JoystickAxis .TRIGGERRIGHT 32766
      ∈ (HIDAPI_DriverSteamDeck_UpdateDevice sampleConstants freshContext
          (sampleInput 64)).effects :=
  ⟨by decide, by decide,
    (C8_trigger_rescale_exact sampleConstants freshContext (sampleInput 64)
      (by decide) (by decide)).2.2.1 rfl,
    (C8_trigger_rescale_exact sampleConstants freshContext (sampleInput 64)
      (by decide) (by decide)).2.2.2.2.2 rfl⟩

/-- C9 fails as stated: for the raw right-stick Y value -32768 the value emitted on RIGHTY is
-32768 (the negation 32768 does not fit the `Sint16` parameter), not its negation. -/
theorem C9_counterexample_negation_wraps_at_min :
    reachesRead sampleConstants freshContext (sampleInput 64) ∧
    conforming sampleConstants (sampleInput 64).r (sampleInput 64).report = true ∧
    (sampleInput 64).report.deckState.sRightStickY = -32768 ∧
    Effect.JoystickAxis .RIGHTY (-32768)
      ∈ (HIDAPI_DriverSteamDeck_UpdateDevice sampleConstants freshContext
          (sampleInput 64)).effects ∧
    Effect.JoystickAxis .RIGHTY (-(sampleInput 64).report.deckState.sRightStickY)
      ∉ (HIDAPI_DriverSteamDeck_UpdateDevice sampleConstants freshContext
          (sampleInput 64)).effects := by
  decide

/-- C9, amended.  On a cycle that decodes a conforming report, a raw stick Y value in
`-32767..32767` is emitted on LEFTY / RIGHTY as its exact arithmetic negation, and every signed
16-bit raw stick X value (`-32768..32767`) is emitted on LEFTX / RIGHTX unmodified. -/
theorem C9_stick_axes (K : ControllerConstants)
    (ctx : SDL_DriverSteamDeck_Context) (i : UpdateInput) (h : reachesRead K ctx i)
    (hc : conforming K i.r i.report = true) :
    (-32768 ≤ i.report.deckState.sLeftStickX → i.report.deckState.sLeftStickX ≤ 32767 →
      ∀ v : Int, Effect.JoystickAxis .LEFTX v
          ∈ (HIDAPI_DriverSteamDeck_UpdateDevice K ctx i).effects ↔
        v = i.report.deckState.sLeftStickX) ∧
    (-32767 ≤ i.report.deckState.sLeftStickY → i.report.deckState.sLeftStickY ≤ 32767 →
      ∀ v : Int, Effect.JoystickAxis .LEFTY v
          ∈ (HIDAPI_DriverSteamDeck_UpdateDevice K ctx i).effects ↔
        v = -i.report.deckState.sLeftStickY) ∧
    (-32768 ≤ i.report.deckState.sRightStickX → i.report.deckState.sRightStickX ≤ 32767 →
      ∀ v : Int, Effect.JoystickAxis .RIGHTX v
          ∈ (HIDAPI_DriverSteamDeck_UpdateDevice K ctx i).effects ↔
        v = i.report.deckState.sRightStickX) ∧
    (-32767 ≤ i.report.deckState.sRightStickY → i.report.deckState.sRightStickY ≤ 32767 →
      ∀ v : Int, Effect.JoystickAxis .RIGHTY v
          ∈ (HIDAPI_DriverSteamDeck_UpdateDevice K ctx i).effects ↔
        v = -i.report.deckState.sRightStickY) := by
  refine ⟨fun h1 h2 v => ?_, fun h1 h2 v => ?_, fun h1 h2 v => ?_, fun h1 h2 v => ?_⟩
  · rw [axis_mem_update_conforming K ctx i h hc]
    simp only [axisCalls, SDL_PrivateJoystickAxis]
    rw [toSint16_of_range i.report.deckState.sLeftStickX h1 h2]
    simp
  · rw [axis_mem_update_conforming K ctx i h hc]
    simp only [axisCalls, SDL_PrivateJoystickAxis]
    rw [toSint16_of_range (-i.report.deckState.sLeftStickY) (by omega) (by omega)]
    simp
  · rw [axis_mem_update_conforming K ctx i h hc]
    simp only [axisCalls, SDL_PrivateJoystickAxis]
    rw [toSint16_of_range i.report.deckState.sRightStickX h1 h2]
    simp
  · rw [axis_mem_update_conforming K ctx i h hc]
    simp only [axisCalls, SDL_PrivateJoystickAxis]
    rw [toSint16_of_range (-i.report.deckState.sRightStickY) (by omega) (by omega)]
    simp

/-- Witness for C9: the sample report has left stick (100, -200) and right stick X 32767. -/
theorem C9_stick_axes_witness :
    reachesRead sampleConstants freshContext (sampleInput 64) ∧
    conforming sampleConstants (sampleInput 64).r (sampleInput 64).report = true ∧
    (Effect.JoystickAxis .LEFTY 200
      ∈ (HIDAPI_DriverSteamDeck_UpdateDevice sampleConstants freshContext
          (sampleInput 64)).effects) ∧
    (Effect.JoystickAxis .RIGHTX 32767
      ∈ (HIDAPI_DriverSteamDeck_UpdateDevice sampleConstants freshContext
          (sampleInput 64)).effects) :=
  ⟨by decide, by decide,
    ((C9_stick_axes sampleConstants freshContext (sampleInput 64)
      (by decide) (by decide)).2.1 (by decide) (by decide) 200).2 rfl,
    ((C9_stick_axes sampleConstants freshContext (sampleInput 64)
      (by decide) (by decide)).2.2.1 (by decide) (by decide) 32767).2 rfl⟩

/-- C10. On every cycle that decodes a conforming report, whatever the context held before, the
cycle returns `SDL_TRUE` and its calls end with exactly six axis events (TRIGGERLEFT,
TRIGGERRIGHT, LEFTX, LEFTY, RIGHTX, RIGHTY, in this order) followed by one gyroscope sample and
one accelerometer sample, both tagged with the just-advanced `sensor_timestamp_us`; no other axis
event or sensor sample is delivered. -/
theorem C10_axes_and_sensors_always_emitted (K : ControllerConstants)
    (ctx : SDL_DriverSteamDeck_Context) (i : UpdateInput) (h : reachesRead K ctx i)
    (hc : conforming K i.r i.report = true) :
    (HIDAPI_DriverSteamDeck_UpdateDevice K ctx i).ret = true ∧
    (HIDAPI_DriverSteamDeck_UpdateDevice K ctx i).ctx.sensor_timestamp_us
      = (ctx.sensor_timestamp_us + ctx.update_rate_us) % 2 ^ 32 ∧
    ∃ (pre : List Effect) (tl tr lx ly rx ry gx gy gz ax ay az : Int),
      (HIDAPI_DriverSteamDeck_UpdateDevice K ctx i).effects = pre ++
        [ .JoystickAxis .TRIGGERLEFT tl, .JoystickAxis .TRIGGERRIGHT tr,
          .JoystickAxis .LEFTX lx, .JoystickAxis .LEFTY ly,
          .JoystickAxis .RIGHTX rx, .JoystickAxis .RIGHTY ry,
          .JoystickSensor .SDL_SENSOR_GYRO
            (HIDAPI_DriverSteamDeck_UpdateDevice K ctx i).ctx.sensor_timestamp_us gx gy gz,
          .JoystickSensor .SDL_SENSOR_ACCEL
            (HIDAPI_DriverSteamDeck_UpdateDevice K ctx i).ctx.sensor_timestamp_us ax ay az ] ∧
      ∀ e ∈ pre, e.isAxis = false ∧ e.isSensor = false := by
  rw [update_read_conforming K ctx i h hc]
  refine ⟨rfl, rfl, watchdogCalls K ctx i ++ [Effect.hid_read]
      ++ (if i.report.deckState.ulButtons ≠ ctx.last_button_state
            then buttonCalls i.report.deckState else []),
    toSint16 ((i.report.deckState.sTriggerRawL : Int) * 2 - 32768),
    toSint16 ((i.report.deckState.sTriggerRawR : Int) * 2 - 32768),
    toSint16 i.report.deckState.sLeftStickX, toSint16 (-i.report.deckState.sLeftStickY),
    toSint16 i.report.deckState.sRightStickX, toSint16 (-i.report.deckState.sRightStickY),
    i.report.deckState.sGyroX, i.report.deckState.sGyroZ, -i.report.deckState.sGyroY,
    i.report.deckState.sAccelX, i.report.deckState.sAccelZ, -i.report.deckState.sAccelY,
    ?_, ?_⟩
  · simp only [axisCalls, sensorCalls, SDL_PrivateJoystickAxis, List.append_assoc,
      List.cons_append, List.nil_append]
  · intro e he
    rcases List.mem_append.1 he with he | he
    · rcases List.mem_append.1 he with he | he
      · have := watchdogCalls_not_sink K ctx i e he
        exact ⟨this.2.1, this.2.2.1⟩
      · simp only [List.mem_singleton] at he
        subst he
        exact ⟨rfl, rfl⟩
    · split at he
      · have hall : ∀ x ∈ buttonCalls i.report.deckState,
            x.isAxis = false ∧ x.isSensor = false := by
          simp [buttonCalls, SDL_PrivateJoystickButton, Effect.isAxis, Effect.isSensor]
        exact hall e he
      · simp at he

/-- Witness for C10: the sample report on a fresh context. -/
theorem C10_axes_and_sensors_always_emitted_witness :
    reachesRead sampleConstants freshContext (sampleInput 64) ∧
    conforming sampleConstants (sampleInput 64).r (sampleInput 64).report = true ∧
    (HIDAPI_DriverSteamDeck_UpdateDevice sampleConstants freshContext (sampleInput 64)).ret
      = true ∧
    (HIDAPI_DriverSteamDeck_UpdateDevice sampleConstants freshContext
      (sampleInput 64)).ctx.sensor_timestamp_us
      = (freshContext.sensor_timestamp_us + freshContext.update_rate_us) % 2 ^ 32 :=
  ⟨by decide, by decide,
    (C10_axes_and_sensors_always_emitted sampleConstants freshContext (sampleInput 64)
      (by decide) (by decide)).1,
    (C10_axes_and_sensors_always_emitted sampleConstants freshContext (sampleInput 64)
      (by decide) (by decide)).2.1⟩

/-! ### C11, C12, C18: the button mapping -/

theorem and_two_pow_ne_zero_iff (x k : Nat) : x &&& 2 ^ k ≠ 0 ↔ x.testBit k = true := by
  constructor
  · intro hne
    by_contra hb
    apply hne
    apply Nat.eq_of_testBit_eq
    intro j
    rw [Nat.testBit_and, Nat.testBit_two_pow, Nat.zero_testBit]
    by_cases hkj : k = j
    · subst hkj
      simp at hb
      simp [hb]
    · simp [hkj]
  · intro hb h0
    have h1 : (x &&& 2 ^ k).testBit k = true := by
      rw [Nat.testBit_and, Nat.testBit_two_pow, hb]
      simp
    rw [h0, Nat.zero_testBit] at h1
    exact Bool.noConfusion h1

theorem privateButton_two_pow (b : SDL_GameControllerButton) (w k : Nat) :
    SDL_PrivateJoystickButton b w (2 ^ k) =
      .JoystickButton b (if w.testBit k then .SDL_PRESSED else .SDL_RELEASED) := by
  unfold SDL_PrivateJoystickButton
  by_cases hb : w.testBit k = true
  · have := (and_two_pow_ne_zero_iff w k).2 hb
    simp [hb, this]
  · have hn : ¬ (w &&& 2 ^ k ≠ 0) := fun h => hb ((and_two_pow_ne_zero_iff w k).1 h)
    simp only [ne_eq, Decidable.not_not] at hn
    simp [hb, hn]

/-- The twenty calls of lines 252-296 are the rows of `buttonBits`, masks written as powers of
two. -/
theorem buttonCalls_eq_map_masks (s : SteamDeckStatePacket_t) :
    buttonCalls s = buttonBits.map fun e =>
      SDL_PrivateJoystickButton e.1 (s.buttonWord e.2.1) (2 ^ e.2.2) := rfl

/-- The twenty calls of lines 252-296, row by row: pressed exactly when the flag bit is set. -/
theorem buttonCalls_eq_map (s : SteamDeckStatePacket_t) :
    buttonCalls s = buttonBits.map (buttonEventOf s) := by
  rw [buttonCalls_eq_map_masks]
  apply List.map_congr_left
  intro e _
  exact privateButton_two_pow _ _ _

theorem buttonEventOf_eq_iff (s1 s2 : SteamDeckStatePacket_t)
    (e : SDL_GameControllerButton × ButtonWord × Nat) :
    buttonEventOf s1 e = buttonEventOf s2 e ↔
      (s1.buttonWord e.2.1).testBit e.2.2 = (s2.buttonWord e.2.1).testBit e.2.2 := by
  unfold buttonEventOf
  cases (s1.buttonWord e.2.1).testBit e.2.2 <;> cases (s2.buttonWord e.2.1).testBit e.2.2 <;>
    simp

theorem buttonCalls_eq_iff (s1 s2 : SteamDeckStatePacket_t) :
    buttonCalls s1 = buttonCalls s2 ↔ buttonBitsAgree s1 s2 := by
  rw [buttonCalls_eq_map, buttonCalls_eq_map, List.map_inj_left]
  unfold buttonBitsAgree
  constructor
  · intro h e he
    exact (buttonEventOf_eq_iff s1 s2 e).1 (h e he)
  · intro h e he
    exact (buttonEventOf_eq_iff s1 s2 e).2 (h e he)

/-- The button events of a cycle that decodes a report whose button word changed. -/
theorem buttonEvents_update_changed (K : ControllerConstants)
    (ctx : SDL_DriverSteamDeck_Context) (i : UpdateInput) (h : reachesRead K ctx i)
    (hc : conforming K i.r i.report = true)
    (hd : i.report.deckState.ulButtons ≠ ctx.last_button_state) :
    buttonEvents (HIDAPI_DriverSteamDeck_UpdateDevice K ctx i).effects
      = buttonCalls i.report.deckState := by
  rw [buttonEvents_update_conforming K ctx i h hc, if_pos hd]

/-- C11. The button decode is a function of the two button words with no aliasing: the mapping
has 20 rows, its 20 button identifiers are pairwise distinct, its 20 (word, bit) flags are
pairwise distinct, and a cycle that emits button events emits, row by row, the row's button as
pressed exactly when the row's flag bit is set.  Hence two such cycles emit the same button
events if their reports have the same two button words, and they emit the same button events if
and only if the reports agree on the 20 flag bits. -/
theorem C11_button_decode_no_aliasing (K : ControllerConstants)
    (ctx1 ctx2 : SDL_DriverSteamDeck_Context) (i1 i2 : UpdateInput)
    (h1 : reachesRead K ctx1 i1) (hc1 : conforming K i1.r i1.report = true)
    (hd1 : i1.report.deckState.ulButtons ≠ ctx1.last_button_state)
    (h2 : reachesRead K ctx2 i2) (hc2 : conforming K i2.r i2.report = true)
    (hd2 : i2.report.deckState.ulButtons ≠ ctx2.last_button_state) :
    buttonBits.length = 20 ∧
    (buttonBits.map (·.1)).Nodup ∧
    (buttonBits.map (·.2)).Nodup ∧
    buttonEvents (HIDAPI_DriverSteamDeck_UpdateDevice K ctx1 i1).effects
      = buttonBits.map (buttonEventOf i1.report.deckState) ∧
    (i1.report.deckState.ulButtonsL = i2.report.deckState.ulButtonsL →
      i1.report.deckState.ulButtonsH = i2.report.deckState.ulButtonsH →
      buttonEvents (HIDAPI_DriverSteamDeck_UpdateDevice K ctx1 i1).effects
        = buttonEvents (HIDAPI_DriverSteamDeck_UpdateDevice K ctx2 i2).effects) ∧
    (buttonEvents (HIDAPI_DriverSteamDeck_UpdateDevice K ctx1 i1).effects
        = buttonEvents (HIDAPI_DriverSteamDeck_UpdateDevice K ctx2 i2).effects ↔
      buttonBitsAgree i1.report.deckState i2.report.deckState) := by
  have e1 := buttonEvents_update_changed K ctx1 i1 h1 hc1 hd1
  have e2 := buttonEvents_update_changed K ctx2 i2 h2 hc2 hd2
  refine ⟨rfl, by decide, by decide, ?_, ?_, ?_⟩
  · rw [e1, buttonCalls_eq_map]
  · intro hL hH
    rw [e1, e2, buttonCalls_eq_iff]
    intro e _
    cases hw : e.2.1 <;> simp [SteamDeckStatePacket_t.buttonWord, hL, hH]
  · rw [e1, e2, buttonCalls_eq_iff]

/-- Witness for C11: two reports on a fresh context, one with button A held (low word 0x80), one
with A held and the unmapped R2 flag set (low word 0x81); they agree on the 20 flag bits. -/
theorem C11_button_decode_no_aliasing_witness :
    reachesRead sampleConstants freshContext (inputWithButtons 0x80 0) ∧
    conforming sampleConstants (inputWithButtons 0x80 0).r (inputWithButtons 0x80 0).report
      = true ∧
    (inputWithButtons 0x80 0).report.deckState.ulButtons ≠ freshContext.last_button_state ∧
    reachesRead sampleConstants freshContext (inputWithButtons 0x81 0) ∧
    conforming sampleConstants (inputWithButtons 0x81 0).r (inputWithButtons 0x81 0).report
      = true ∧
    (inputWithButtons 0x81 0).report.deckState.ulButtons ≠ freshContext.last_button_state ∧
    buttonBitsAgree (inputWithButtons 0x80 0).report.deckState
      (inputWithButtons 0x81 0).report.deckState ∧
    buttonEvents (HIDAPI_DriverSteamDeck_UpdateDevice sampleConstants freshContext
        (inputWithButtons 0x80 0)).effects
      = buttonEvents (HIDAPI_DriverSteamDeck_UpdateDevice sampleConstants freshContext
        (inputWithButtons 0x81 0)).effects :=
  ⟨by decide, by decide, by decide, by decide, by decide, by decide, by decide,
    (C11_button_decode_no_aliasing sampleConstants freshContext freshContext
      (inputWithButtons 0x80 0) (inputWithButtons 0x81 0)
      (by decide) (by decide) (by decide) (by decide) (by decide) (by decide)).2.2.2.2.2.2
      (by decide)⟩

/-- C12 fails as stated: `STEAMDECK_LBUTTON_R2` is one of the 24 constants of `SteamDeckButtons`,
yet no button is computed from it, and a report with only that flag set yields the same twenty
button calls as a report with no flag set. -/
theorem C12_counterexample_R2_drives_no_button :
    (ButtonWord.L, STEAMDECK_LBUTTON_R2) ∈ SteamDeckButtons ∧
    drivenBy (ButtonWord.L, STEAMDECK_LBUTTON_R2) = [] ∧
    buttonCalls (stateWithButtons STEAMDECK_LBUTTON_R2 0) = buttonCalls (stateWithButtons 0 0) := by
  decide

/-- C12, amended.  Of the 24 constants of `SteamDeckButtons`, the 20 other than
`STEAMDECK_LBUTTON_R2`, `STEAMDECK_LBUTTON_L2`, `STEAMDECK_LBUTTON_LEFT_PAD` and
`STEAMDECK_LBUTTON_RIGHT_PAD` each determine the reported state of exactly one button, and no two
of them the same button; those four determine none.  Every row of the mapping tests one of the 24
constants, and the twenty button calls of the update are the rows of the mapping. -/
theorem C12_flags_to_buttons :
    SteamDeckButtons.length = 24 ∧
    SteamDeckButtons.Nodup ∧
    (∀ f ∈ SteamDeckButtons, f ∉ unmappedFlags → (drivenBy f).length = 1) ∧
    (∀ f ∈ SteamDeckButtons, ∀ g ∈ SteamDeckButtons, f ≠ g →
      ∀ b, b ∈ drivenBy f → b ∉ drivenBy g) ∧
    (∀ f ∈ unmappedFlags, f ∈ SteamDeckButtons ∧ drivenBy f = []) ∧
    (∀ e ∈ buttonBits, (e.2.1, 2 ^ e.2.2) ∈ SteamDeckButtons ∧ e.1 ∈ drivenBy (e.2.1, 2 ^ e.2.2)) ∧
    (∀ s : SteamDeckStatePacket_t, buttonCalls s = buttonBits.map fun e =>
      SDL_PrivateJoystickButton e.1 (s.buttonWord e.2.1) (2 ^ e.2.2)) := by
  refine ⟨rfl, by decide, by decide, by decide, by decide, by decide, fun s => rfl⟩

/-! ### C13: a failed watchdog feed -/

/-- C13. In a cycle that enters with the watchdog feed due (`watchdog_counter > 200`), if a
feature-report write of `FeedDeckLizardWatchdog` returns a byte count other than the buffer size,
the cycle returns `SDL_FALSE` without tearing down the session: no disconnect signal, no
input-report read, no button, axis or sensor event, and `sensor_timestamp_us`,
`last_button_state` and `update_rate_us` are unchanged.  With a joystick registered the feed was
indeed started (a feature report was written) and the counter is back at 0. -/
theorem C13_failed_feed_fails_cycle_quietly (K : ControllerConstants)
    (ctx : SDL_DriverSteamDeck_Context) (i : UpdateInput)
    (hdue : ctx.watchdog_counter > 200)
    (hbad : i.feed_rc1 ≠ sizeof_buffer K ∨ i.feed_rc2 ≠ sizeof_buffer K) :
    (HIDAPI_DriverSteamDeck_UpdateDevice K ctx i).ret = false ∧
    disconnects (HIDAPI_DriverSteamDeck_UpdateDevice K ctx i).effects = 0 ∧
    Effect.hid_read ∉ (HIDAPI_DriverSteamDeck_UpdateDevice K ctx i).effects ∧
    sinkEvents (HIDAPI_DriverSteamDeck_UpdateDevice K ctx i).effects = [] ∧
    (HIDAPI_DriverSteamDeck_UpdateDevice K ctx i).ctx.sensor_timestamp_us
      = ctx.sensor_timestamp_us ∧
    (HIDAPI_DriverSteamDeck_UpdateDevice K ctx i).ctx.last_button_state
      = ctx.last_button_state ∧
    (HIDAPI_DriverSteamDeck_UpdateDevice K ctx i).ctx.update_rate_us = ctx.update_rate_us ∧
    (i.num_joysticks > 0 → i.joystick = true →
      (HIDAPI_DriverSteamDeck_UpdateDevice K ctx i).effects.any Effect.isSend = true ∧
      (HIDAPI_DriverSteamDeck_UpdateDevice K ctx i).ctx.watchdog_counter = 0) := by
  have hf : ¬ (i.feed_rc1 = sizeof_buffer K ∧ i.feed_rc2 = sizeof_buffer K) := by
    rintro ⟨h1, h2⟩
    rcases hbad with hb | hb
    · exact hb h1
    · exact hb h2
  have hp : ¬ (reachesRead K ctx i ∧ conforming K i.r i.report = true) :=
    fun hp => hf (hp.1.2.2 hdue)
  obtain ⟨hret, hsink, hts, hlb, hrt⟩ := update_not_processed K ctx i hp
  have hcalls : ∀ e ∈ (HIDAPI_DriverSteamDeck_UpdateDevice K ctx i).effects,
      e ≠ Effect.JoystickDisconnected ∧ e ≠ Effect.hid_read := by
    by_cases hnj : i.num_joysticks > 0 ∧ i.joystick = true
    · rw [update_feed_failed K ctx i hnj.1 hnj.2 hdue hf]
      intro e he
      exact (feed_calls_not_sink K _ _ _ e he).2.2.2
    · rw [update_no_joystick K ctx i hnj]
      intro e he
      simp at he
  refine ⟨hret, ?_, ?_, sinkEvents_eq_nil _ hsink, hts, hlb, hrt, ?_⟩
  · unfold disconnects
    rw [List.count_eq_zero]
    exact fun hm => (hcalls _ hm).1 rfl
  · exact fun hm => (hcalls _ hm).2 rfl
  · intro hn hj
    rw [update_feed_failed K ctx i hn hj hdue hf]
    refine ⟨?_, rfl⟩
    show (FeedDeckLizardWatchdog K i.feed_rc1 i.feed_rc2 i.feed_reply).2.any Effect.isSend = true
    unfold FeedDeckLizardWatchdog
    by_cases h1 : i.feed_rc1 = sizeof_buffer K <;> by_cases h2 : i.feed_rc2 = sizeof_buffer K <;>
      simp [h1, h2, Effect.isSend]

/-- Witness for C13: the counter is at 201 and the second write of the feed returns 64. -/
theorem C13_failed_feed_fails_cycle_quietly_witness :
    ({ freshContext with watchdog_counter := 201 } : SDL_DriverSteamDeck_Context).watchdog_counter
      > 200 ∧
    ((inputWithFeed 65 64).feed_rc1 ≠ sizeof_buffer sampleConstants ∨
      (inputWithFeed 65 64).feed_rc2 ≠ sizeof_buffer sampleConstants) ∧
    (HIDAPI_DriverSteamDeck_UpdateDevice sampleConstants
      { freshContext with watchdog_counter := 201 } (inputWithFeed 65 64)).ret = false ∧
    Effect.hid_read ∉ (HIDAPI_DriverSteamDeck_UpdateDevice sampleConstants
      { freshContext with watchdog_counter := 201 } (inputWithFeed 65 64)).effects :=
  ⟨by decide, by decide,
    (C13_failed_feed_fails_cycle_quietly sampleConstants
      { freshContext with watchdog_counter := 201 } (inputWithFeed 65 64)
      (by decide) (by decide)).1,
    (C13_failed_feed_fails_cycle_quietly sampleConstants
      { freshContext with watchdog_counter := 201 } (inputWithFeed 65 64)
      (by decide) (by decide)).2.2.1⟩

/-! ### C14, C15, C20: identification read and handshake -/

theorem disable_of_writes_ok (K : ControllerConstants) (rc1 rc2 reply : Int)
    (h1 : rc1 = sizeof_buffer K) (h2 : rc2 = sizeof_buffer K) :
    DisableDeckLizardMode K rc1 rc2 reply =
      (true, [.hid_send_feature_report (clearDigitalMappings K),
              .hid_send_feature_report (disableSettings K), .hid_get_feature_report]) := by
  unfold DisableDeckLizardMode clearDigitalMappings disableSettings
  simp [h1, h2]

theorem feed_of_writes_ok (K : ControllerConstants) (rc1 rc2 reply : Int)
    (h1 : rc1 = sizeof_buffer K) (h2 : rc2 = sizeof_buffer K) :
    FeedDeckLizardWatchdog K rc1 rc2 reply =
      (true, [.hid_send_feature_report (clearDigitalMappings K),
              .hid_send_feature_report (feedSettings K), .hid_get_feature_report]) := by
  unfold FeedDeckLizardWatchdog clearDigitalMappings feedSettings
  simp [h1, h2]

/-- The handshake always starts with the "clear digital mappings" write. -/
theorem disable_calls_head (K : ControllerConstants) (rc1 rc2 reply : Int) :
    ∃ rest, (DisableDeckLizardMode K rc1 rc2 reply).2
      = .hid_send_feature_report (clearDigitalMappings K) :: rest ∧
      ∀ e ∈ rest, e.isReadTimeout = false ∧ e ≠ .JoystickConnected := by
  unfold DisableDeckLizardMode clearDigitalMappings
  by_cases h1 : rc1 = sizeof_buffer K <;> by_cases h2 : rc2 = sizeof_buffer K <;>
    simp [h1, h2, Effect.isReadTimeout]

/-- Initialisation once the context is allocated and the identification read returned a nonzero
value. -/
theorem init_read_nonzero (K : ControllerConstants) (i : InitInput)
    (hcalloc : i.calloc_ok = true) (hs : i.size ≠ 0) :
    HIDAPI_DriverSteamDeck_InitDevice K i =
      { ret := (DisableDeckLizardMode K i.rc1 i.rc2 i.reply).1 && i.connected,
        context := some freshContext,
        effects := .hid_read_timeout 16 :: (DisableDeckLizardMode K i.rc1 i.rc2 i.reply).2
          ++ (if (DisableDeckLizardMode K i.rc1 i.rc2 i.reply).1
                then [.SetDeviceName, .JoystickConnected] else []) } := by
  unfold HIDAPI_DriverSteamDeck_InitDevice freshContext
  cases hd : (DisableDeckLizardMode K i.rc1 i.rc2 i.reply).1 <;> simp [hcalloc, hs, hd]

/-- Initialisation once the context is allocated and the identification read returned 0. -/
theorem init_read_zero (K : ControllerConstants) (i : InitInput)
    (hcalloc : i.calloc_ok = true) (hs : i.size = 0) :
    HIDAPI_DriverSteamDeck_InitDevice K i =
      { ret := false, context := some freshContext, effects := [.hid_read_timeout 16] } := by
  unfold HIDAPI_DriverSteamDeck_InitDevice freshContext
  simp [hcalloc, hs]

/-- C14. In `HIDAPI_DriverSteamDeck_InitDevice`, once the context has been allocated, exactly one
bounded-timeout read is issued, with a timeout of 16 ms.  If it returns 0, init returns false
without writing any feature report and without registering the device.  If it returns a positive
byte count (the bytes read are never inspected), init goes on to the lizard-mode handshake, and
when the handshake succeeds the device is registered and init returns the result of
`HIDAPI_JoystickConnected`. -/
theorem C14_identification_read (K : ControllerConstants) (i : InitInput)
    (hcalloc : i.calloc_ok = true) :
    (HIDAPI_DriverSteamDeck_InitDevice K i).effects.filter Effect.isReadTimeout
      = [.hid_read_timeout 16] ∧
    (i.size = 0 →
      (HIDAPI_DriverSteamDeck_InitDevice K i).ret = false ∧
      (HIDAPI_DriverSteamDeck_InitDevice K i).effects.any Effect.isSend = false ∧
      Effect.JoystickConnected ∉ (HIDAPI_DriverSteamDeck_InitDevice K i).effects) ∧
    (0 < i.size →
      (HIDAPI_DriverSteamDeck_InitDevice K i).effects
        = .hid_read_timeout 16 :: (DisableDeckLizardMode K i.rc1 i.rc2 i.reply).2
          ++ (if (DisableDeckLizardMode K i.rc1 i.rc2 i.reply).1
                then [.SetDeviceName, .JoystickConnected] else []) ∧
      Effect.hid_send_feature_report (clearDigitalMappings K)
        ∈ (HIDAPI_DriverSteamDeck_InitDevice K i).effects ∧
      ((DisableDeckLizardMode K i.rc1 i.rc2 i.reply).1 = true →
        (HIDAPI_DriverSteamDeck_InitDevice K i).ret = i.connected ∧
        Effect.JoystickConnected ∈ (HIDAPI_DriverSteamDeck_InitDevice K i).effects)) := by
  obtain ⟨rest, hrest, hrest2⟩ := disable_calls_head K i.rc1 i.rc2 i.reply
  have hfr : rest.filter Effect.isReadTimeout = [] :=
    filter_eq_nil_of_forall_false _ _ fun e he => (hrest2 e he).1
  refine ⟨?_, fun hs => ?_, fun hs => ?_⟩
  · by_cases hs : i.size = 0
    · rw [init_read_zero K i hcalloc hs]
      rfl
    · rw [init_read_nonzero K i hcalloc hs, hrest]
      cases (DisableDeckLizardMode K i.rc1 i.rc2 i.reply).1 <;>
        simp [List.filter_cons, List.filter_append, Effect.isReadTimeout, hfr]
  · rw [init_read_zero K i hcalloc hs]
    simp [Effect.isSend]
  · have hs0 : i.size ≠ 0 := by omega
    rw [init_read_nonzero K i hcalloc hs0]
    refine ⟨rfl, ?_, fun hd => ?_⟩
    · simp [hrest]
    · simp [hd]

/-- Witness for C14: the identification read returns 1 byte, handshake and registration
succeed. -/
theorem C14_identification_read_witness :
    (initWithRead 1).calloc_ok = true ∧ 0 < (initWithRead 1).size ∧
    (DisableDeckLizardMode sampleConstants (initWithRead 1).rc1 (initWithRead 1).rc2
      (initWithRead 1).reply).1 = true ∧
    (HIDAPI_DriverSteamDeck_InitDevice sampleConstants (initWithRead 1)).ret
      = (initWithRead 1).connected ∧
    Effect.JoystickConnected
      ∈ (HIDAPI_DriverSteamDeck_InitDevice sampleConstants (initWithRead 1)).effects :=
  ⟨rfl, by decide, by decide,
    ((C14_identification_read sampleConstants (initWithRead 1) rfl).2.2 (by decide)).2.2
      (by decide)⟩

/-- C15. For both `DisableDeckLizardMode` and `FeedDeckLizardWatchdog`: when both feature-report
writes return the buffer size, the transport calls issued are exactly write ("clear digital
mappings"), write ("set settings values"), feature-report read, in this order, and the function
returns true whatever the feature-report read returns (neither its return value nor the reply
bytes are looked at). -/
theorem C15_handshake_discards_reply (K : ControllerConstants) (rc1 rc2 : Int)
    (h1 : rc1 = sizeof_buffer K) (h2 : rc2 = sizeof_buffer K) :
    (∀ reply : Int, DisableDeckLizardMode K rc1 rc2 reply =
      (true, [.hid_send_feature_report (clearDigitalMappings K),
              .hid_send_feature_report (disableSettings K), .hid_get_feature_report])) ∧
    (∀ reply : Int, FeedDeckLizardWatchdog K rc1 rc2 reply =
      (true, [.hid_send_feature_report (clearDigitalMappings K),
              .hid_send_feature_report (feedSettings K), .hid_get_feature_report])) :=
  ⟨fun reply => disable_of_writes_ok K rc1 rc2 reply h1 h2,
    fun reply => feed_of_writes_ok K rc1 rc2 reply h1 h2⟩

/-- Witness for C15: both writes return 65 and the feature-report read fails with -1. -/
theorem C15_handshake_discards_reply_witness :
    (65 : Int) = sizeof_buffer sampleConstants ∧
    (DisableDeckLizardMode sampleConstants 65 65 (-1)).1 = true ∧
    (FeedDeckLizardWatchdog sampleConstants 65 65 (-1)).1 = true :=
  ⟨by decide,
    by rw [(C15_handshake_discards_reply sampleConstants 65 65 (by decide) (by decide)).1 (-1)],
    by rw [(C15_handshake_discards_reply sampleConstants 65 65 (by decide) (by decide)).2 (-1)]⟩

/-- C20. Once the context has been allocated, `HIDAPI_DriverSteamDeck_InitDevice` goes on to the
lizard-mode handshake (writes a feature report) if and only if the identification read returned
a nonzero value.  A negative result is treated like a positive one: two initialisations that
differ only in the nonzero value returned by the identification read behave identically, so with
a negative (failed) read, a successful handshake and a successful registration, init registers
the device and returns true. -/
theorem C20_negative_identification_read_proceeds (K : ControllerConstants) (i : InitInput)
    (hcalloc : i.calloc_ok = true) :
    ((HIDAPI_DriverSteamDeck_InitDevice K i).effects.any Effect.isSend = true ↔ i.size ≠ 0) ∧
    (∀ size2 : Int, i.size ≠ 0 → size2 ≠ 0 →
      HIDAPI_DriverSteamDeck_InitDevice K { i with size := size2 }
        = HIDAPI_DriverSteamDeck_InitDevice K i) ∧
    (i.size < 0 → i.rc1 = sizeof_buffer K → i.rc2 = sizeof_buffer K → i.connected = true →
      (HIDAPI_DriverSteamDeck_InitDevice K i).ret = true ∧
      Effect.JoystickConnected ∈ (HIDAPI_DriverSteamDeck_InitDevice K i).effects) := by
  obtain ⟨rest, hrest, -⟩ := disable_calls_head K i.rc1 i.rc2 i.reply
  refine ⟨?_, fun size2 hs hs2 => ?_, fun hs h1 h2 hconn => ?_⟩
  · by_cases hs : i.size = 0
    · rw [init_read_zero K i hcalloc hs]
      simp [hs, Effect.isSend]
    · rw [init_read_nonzero K i hcalloc hs, hrest]
      simp [hs, Effect.isSend]
  · rw [init_read_nonzero K i hcalloc hs,
      init_read_nonzero K { i with size := size2 } hcalloc hs2]
  · have hs0 : i.size ≠ 0 := by omega
    rw [init_read_nonzero K i hcalloc hs0, disable_of_writes_ok K _ _ _ h1 h2]
    simp [hconn]

/-- Witness for C20: the identification read fails with -1, yet init registers the device and
returns true. -/
theorem C20_negative_identification_read_proceeds_witness :
    (initWithRead (-1)).calloc_ok = true ∧ (initWithRead (-1)).size < 0 ∧
    (HIDAPI_DriverSteamDeck_InitDevice sampleConstants (initWithRead (-1))).ret = true ∧
    Effect.JoystickConnected
      ∈ (HIDAPI_DriverSteamDeck_InitDevice sampleConstants (initWithRead (-1))).effects :=
  ⟨rfl, by decide,
    (C20_negative_identification_read_proceeds sampleConstants (initWithRead (-1)) rfl).2.2
      (by decide) (by decide) (by decide) rfl⟩

/-! ### C16: capability callbacks -/

/-- C16. For all arguments, the rumble, trigger-rumble, LED and send-effect callbacks return the
"unsupported" result, which is not the success result 0; the capability set reported is empty
(0); the player-index getter returns -1; and the sensor enable/disable call returns 0 for both
`enabled` values. -/
theorem C16_unsupported_operations :
    (∀ low high : Nat,
      HIDAPI_DriverSteamDeck_RumbleJoystick low high = SDL_Unsupported ∧
      HIDAPI_DriverSteamDeck_RumbleJoystick low high ≠ 0) ∧
    (∀ left right : Nat,
      HIDAPI_DriverSteamDeck_RumbleJoystickTriggers left right = SDL_Unsupported ∧
      HIDAPI_DriverSteamDeck_RumbleJoystickTriggers left right ≠ 0) ∧
    (∀ red green blue : Nat,
      HIDAPI_DriverSteamDeck_SetJoystickLED red green blue = SDL_Unsupported ∧
      HIDAPI_DriverSteamDeck_SetJoystickLED red green blue ≠ 0) ∧
    (∀ (data : List Nat) (size : Int),
      HIDAPI_DriverSteamDeck_SendJoystickEffect data size = SDL_Unsupported ∧
      HIDAPI_DriverSteamDeck_SendJoystickEffect data size ≠ 0) ∧
    HIDAPI_DriverSteamDeck_GetJoystickCapabilities = 0 ∧
    (∀ instance_id : Int, HIDAPI_DriverSteamDeck_GetDevicePlayerIndex instance_id = -1) ∧
    (∀ enabled : Bool, HIDAPI_DriverSteamDeck_SetSensorsEnabled enabled = 0) := by
  have hne : SDL_Unsupported ≠ 0 := by decide
  exact ⟨fun _ _ => ⟨rfl, hne⟩, fun _ _ => ⟨rfl, hne⟩, fun _ _ _ => ⟨rfl, hne⟩,
    fun _ _ => ⟨rfl, hne⟩, rfl, fun _ => rfl, fun _ => rfl⟩

/-! ### C18: full re-emission of the button state -/

theorem isButtonOf_buttonEventOf (s : SteamDeckStatePacket_t) (b : SDL_GameControllerButton)
    (e : SDL_GameControllerButton × ButtonWord × Nat) :
    (buttonEventOf s e).isButtonOf b = decide (e.1 = b) := rfl

theorem filter_isButtonOf_eq (b : SDL_GameControllerButton) (l : List Effect) :
    l.filter (Effect.isButtonOf b) = (buttonEvents l).filter (Effect.isButtonOf b) := by
  unfold buttonEvents
  rw [List.filter_filter]
  apply List.filter_congr
  intro e _
  cases e <;> simp [Effect.isButtonOf, Effect.isButton]

theorem buttonBits_one_row_per_button (b : SDL_GameControllerButton) :
    (buttonBits.filter fun e => decide (e.1 = b)).length = 1 := by
  cases b <;> rfl

/-- C18. On a cycle that decodes a conforming report whose combined 64-bit button word differs
from `last_button_state` (in whatever bit, mapped to a button or not), exactly 20 button events
are emitted, the number of buttons declared by `HIDAPI_DriverSteamDeck_OpenJoystick`: for each
of the 20 button identifiers exactly one event, in the order of the mapping, each reporting its
button pressed if and only if the flag bit of its row is set in the report; afterwards
`last_button_state` equals the report's combined button word. -/
theorem C18_full_button_reemission (K : ControllerConstants)
    (ctx : SDL_DriverSteamDeck_Context) (i : UpdateInput) (h : reachesRead K ctx i)
    (hc : conforming K i.r i.report = true)
    (hd : i.report.deckState.ulButtons ≠ ctx.last_button_state) :
    buttonEvents (HIDAPI_DriverSteamDeck_UpdateDevice K ctx i).effects
      = buttonBits.map (buttonEventOf i.report.deckState) ∧
    (buttonEvents (HIDAPI_DriverSteamDeck_UpdateDevice K ctx i).effects).length = 20 ∧
    (∀ (axis_max : Nat) (c : SDL_DriverSteamDeck_Context),
      (buttonEvents (HIDAPI_DriverSteamDeck_UpdateDevice K ctx i).effects).length
        = (HIDAPI_DriverSteamDeck_OpenJoystick axis_max c).nbuttons) ∧
    (∀ b : SDL_GameControllerButton,
      ((HIDAPI_DriverSteamDeck_UpdateDevice K ctx i).effects.filter
        (Effect.isButtonOf b)).length = 1) ∧
    (∀ e ∈ buttonBits, ∀ st : ButtonState,
      Effect.JoystickButton e.1 st ∈ (HIDAPI_DriverSteamDeck_UpdateDevice K ctx i).effects ↔
        (st = .SDL_PRESSED ↔ (i.report.deckState.buttonWord e.2.1).testBit e.2.2 = true)) ∧
    (HIDAPI_DriverSteamDeck_UpdateDevice K ctx i).ctx.last_button_state
      = i.report.deckState.ulButtons := by
  have hev : buttonEvents (HIDAPI_DriverSteamDeck_UpdateDevice K ctx i).effects
      = buttonBits.map (buttonEventOf i.report.deckState) := by
    rw [buttonEvents_update_changed K ctx i h hc hd, buttonCalls_eq_map]
  have hcount : ∀ b : SDL_GameControllerButton,
      ((HIDAPI_DriverSteamDeck_UpdateDevice K ctx i).effects.filter
        (Effect.isButtonOf b)).length = 1 := by
    intro b
    rw [filter_isButtonOf_eq, hev, List.filter_map, List.length_map]
    exact buttonBits_one_row_per_button b
  have hlen : (buttonEvents (HIDAPI_DriverSteamDeck_UpdateDevice K ctx i).effects).length
      = 20 := by
    rw [hev, List.length_map]
    rfl
  refine ⟨hev, hlen, fun _ _ => hlen, hcount, ?_, ?_⟩
  · intro e he st
    have hmem_row : buttonEventOf i.report.deckState e
        ∈ (HIDAPI_DriverSteamDeck_UpdateDevice K ctx i).effects := by
      have : buttonEventOf i.report.deckState e
          ∈ buttonEvents (HIDAPI_DriverSteamDeck_UpdateDevice K ctx i).effects := by
        rw [hev]
        exact List.mem_map_of_mem _ he
      exact (List.mem_filter.1 this).1
    have huniq : ∀ x ∈ (HIDAPI_DriverSteamDeck_UpdateDevice K ctx i).effects,
        x.isButtonOf e.1 = true → x = buttonEventOf i.report.deckState e := by
      intro x hx hxb
      have h1 := hcount e.1
      have hx1 : x ∈ (HIDAPI_DriverSteamDeck_UpdateDevice K ctx i).effects.filter
          (Effect.isButtonOf e.1) := List.mem_filter.2 ⟨hx, hxb⟩
      have hr1 : buttonEventOf i.report.deckState e
          ∈ (HIDAPI_DriverSteamDeck_UpdateDevice K ctx i).effects.filter
            (Effect.isButtonOf e.1) :=
        List.mem_filter.2 ⟨hmem_row, by simp [isButtonOf_buttonEventOf]⟩
      obtain ⟨a, ha⟩ := List.length_eq_one.1 h1
      rw [ha] at hx1 hr1
      rw [List.mem_singleton] at hx1 hr1
      rw [hx1, hr1]
    constructor
    · intro hm
      have := huniq _ hm (by simp [Effect.isButtonOf])
      unfold buttonEventOf at this
      cases hb : (i.report.deckState.buttonWord e.2.1).testBit e.2.2 <;>
        simp [hb] at this <;> simp [this]
    · intro hst
      have hrow := hmem_row
      unfold buttonEventOf at hrow
      cases hb : (i.report.deckState.buttonWord e.2.1).testBit e.2.2
      · rw [hb] at hrow hst
        cases st
        · simpa using hrow
        · simp at hst
      · rw [hb] at hrow hst
        cases st
        · simp at hst
        · simpa using hrow
  · rw [update_read_conforming K ctx i h hc]

/-- Witness for C18: a fresh context and a report in which only the unmapped R2 flag is set; all
20 buttons are reported, each released. -/
theorem C18_full_button_reemission_witness :
    reachesRead sampleConstants freshContext (inputWithButtons STEAMDECK_LBUTTON_R2 0) ∧
    conforming sampleConstants (inputWithButtons STEAMDECK_LBUTTON_R2 0).r
      (inputWithButtons STEAMDECK_LBUTTON_R2 0).report = true ∧
    (inputWithButtons STEAMDECK_LBUTTON_R2 0).report.deckState.ulButtons
      ≠ freshContext.last_button_state ∧
    (buttonEvents (HIDAPI_DriverSteamDeck_UpdateDevice sampleConstants freshContext
      (inputWithButtons STEAMDECK_LBUTTON_R2 0)).effects).length = 20 ∧
    (HIDAPI_DriverSteamDeck_UpdateDevice sampleConstants freshContext
      (inputWithButtons STEAMDECK_LBUTTON_R2 0)).ctx.last_button_state
      = (inputWithButtons STEAMDECK_LBUTTON_R2 0).report.deckState.ulButtons :=
  ⟨by decide, by decide, by decide,
    (C18_full_button_reemission sampleConstants freshContext
      (inputWithButtons STEAMDECK_LBUTTON_R2 0) (by decide) (by decide) (by decide)).2.1,
    (C18_full_button_reemission sampleConstants freshContext
      (inputWithButtons STEAMDECK_LBUTTON_R2 0) (by decide) (by decide) (by decide)).2.2.2.2.2⟩

/-! ### C19: the counter never wraps -/

theorem feed_any_isSend (K : ControllerConstants) (rc1 rc2 reply : Int) :
    (FeedDeckLizardWatchdog K rc1 rc2 reply).2.any Effect.isSend = true := by
  unfold FeedDeckLizardWatchdog
  by_cases h1 : rc1 = sizeof_buffer K <;> by_cases h2 : rc2 = sizeof_buffer K <;>
    simp [h1, h2, Effect.isSend]

/-- With a joystick registered, whatever the transport answers: the counter steps as
`watchdogNext` and feature reports are written exactly when the counter was above 200 on
entry. -/
theorem update_counter_joystick (K : ControllerConstants) (ctx : SDL_DriverSteamDeck_Context)
    (i : UpdateInput) (hn : i.num_joysticks > 0) (hj : i.joystick = true) :
    (HIDAPI_DriverSteamDeck_UpdateDevice K ctx i).ctx.watchdog_counter
      = watchdogNext ctx.watchdog_counter ∧
    (HIDAPI_DriverSteamDeck_UpdateDevice K ctx i).effects.any Effect.isSend
      = decide (ctx.watchdog_counter > 200) := by
  by_cases hrr : reachesRead K ctx i
  · exact update_watchdog_step K ctx i hrr
  · have hdue : ctx.watchdog_counter > 200 := by
      by_contra hd
      exact hrr ⟨hn, hj, fun h2 => absurd h2 hd⟩
    have hf : ¬ (i.feed_rc1 = sizeof_buffer K ∧ i.feed_rc2 = sizeof_buffer K) :=
      fun hf => hrr ⟨hn, hj, fun _ => hf⟩
    rw [update_feed_failed K ctx i hn hj hdue hf]
    constructor
    · show 0 = watchdogNext ctx.watchdog_counter
      unfold watchdogNext
      simp [hdue]
    · show (FeedDeckLizardWatchdog K i.feed_rc1 i.feed_rc2 i.feed_reply).2.any Effect.isSend
        = decide (ctx.watchdog_counter > 200)
      rw [feed_any_isSend]
      simp [hdue]

theorem update_counter_le (K : ControllerConstants) (ctx : SDL_DriverSteamDeck_Context)
    (i : UpdateInput) (hle : ctx.watchdog_counter ≤ 201) :
    (HIDAPI_DriverSteamDeck_UpdateDevice K ctx i).ctx.watchdog_counter ≤ 201 := by
  by_cases hnj : i.num_joysticks > 0 ∧ i.joystick = true
  · rw [(update_counter_joystick K ctx i hnj.1 hnj.2).1, watchdogNext_eq]
    split <;> omega
  · rw [update_no_joystick K ctx i hnj]
    exact hle

theorem finalContext_counter_le (K : ControllerConstants) :
    ∀ (inputs : List UpdateInput) (ctx : SDL_DriverSteamDeck_Context),
      ctx.watchdog_counter ≤ 201 → (finalContext K ctx inputs).watchdog_counter ≤ 201 := by
  intro inputs
  induction inputs with
  | nil =>
    intro ctx hle
    exact hle
  | cons i rest ih =>
    intro ctx hle
    exact ih _ (update_counter_le K ctx i hle)

/-- A run of cycles that each read nothing, short enough not to reach a feed, only advances the
counter. -/
theorem finalContext_replicate_zero_read (K : ControllerConstants) (i : UpdateInput)
    (hi : feedsSucceed K i) (hr : i.r = 0) :
    ∀ (n : Nat) (ctx : SDL_DriverSteamDeck_Context), ctx.watchdog_counter + n ≤ 201 →
      finalContext K ctx (List.replicate n i)
        = { ctx with watchdog_counter := ctx.watchdog_counter + n } := by
  intro n
  induction n with
  | zero =>
    intro ctx _
    rfl
  | succ n ih =>
    intro ctx hle
    rw [List.replicate_succ]
    show finalContext K (HIDAPI_DriverSteamDeck_UpdateDevice K ctx i).ctx (List.replicate n i)
      = _
    rw [update_read_zero K ctx i (reachesRead_of_feedsSucceed K ctx i hi) hr, watchdogNext_eq]
    have hc : ¬ ctx.watchdog_counter > 200 := by omega
    simp only [hc, if_false]
    rw [ih _ (by show ctx.watchdog_counter + 1 + n ≤ 201; omega)]
    show ({ ctx with watchdog_counter := ctx.watchdog_counter + 1 + n }
        : SDL_DriverSteamDeck_Context)
      = { ctx with watchdog_counter := ctx.watchdog_counter + (n + 1) }
    have : ctx.watchdog_counter + 1 + n = ctx.watchdog_counter + (n + 1) := by omega
    rw [this]

/-- C19 fails as stated: after 201 cycles with a registered joystick the counter is 201; a next
cycle during which no joystick is registered starts with the counter equal to 201, yet it
triggers no feed and does not reset the counter. -/
theorem C19_counterexample_no_joystick_at_201 :
    freshContext.watchdog_counter = 0 ∧
    (finalContext sampleConstants freshContext
      (List.replicate 201 (sampleInput 0))).watchdog_counter = 201 ∧
    (HIDAPI_DriverSteamDeck_UpdateDevice sampleConstants
      (finalContext sampleConstants freshContext (List.replicate 201 (sampleInput 0)))
      noJoystickInput).effects.any Effect.isSend = false ∧
    (HIDAPI_DriverSteamDeck_UpdateDevice sampleConstants
      (finalContext sampleConstants freshContext (List.replicate 201 (sampleInput 0)))
      noJoystickInput).ctx.watchdog_counter = 201 := by
  rw [finalContext_replicate_zero_read sampleConstants (sampleInput 0) (by decide) rfl 201
    freshContext (by decide)]
  decide

/-- C19, amended.  In every state reachable from a context with `watchdog_counter = 0` by any
sequence of update cycles (any transport results, with or without a registered joystick),
`watchdog_counter` is at most 201, so the increment of the 8-bit counter never wraps.  In such a
state, a cycle triggers the feed exactly when a joystick is registered and the cycle starts with
the counter equal to 201; the counter is 0 after such a cycle whether or not the feed succeeds;
and a cycle without a registered joystick leaves the context as it was and calls nothing. -/
theorem C19_counter_bounded_by_201 (K : ControllerConstants)
    (ctx : SDL_DriverSteamDeck_Context) (inputs : List UpdateInput) (i : UpdateInput)
    (h0 : ctx.watchdog_counter = 0) :
    (finalContext K ctx inputs).watchdog_counter ≤ 201 ∧
    ((finalContext K ctx inputs).watchdog_counter + 1) % 256
      = (finalContext K ctx inputs).watchdog_counter + 1 ∧
    ((HIDAPI_DriverSteamDeck_UpdateDevice K (finalContext K ctx inputs) i).effects.any
        Effect.isSend = true ↔
      (i.num_joysticks > 0 ∧ i.joystick = true ∧
        (finalContext K ctx inputs).watchdog_counter = 201)) ∧
    (i.num_joysticks > 0 → i.joystick = true →
      (finalContext K ctx inputs).watchdog_counter = 201 →
      (HIDAPI_DriverSteamDeck_UpdateDevice K (finalContext K ctx inputs) i).ctx.watchdog_counter
        = 0) ∧
    (¬ (i.num_joysticks > 0 ∧ i.joystick = true) →
      HIDAPI_DriverSteamDeck_UpdateDevice K (finalContext K ctx inputs) i
        = { ret := false, ctx := finalContext K ctx inputs, effects := [] }) := by
  have hle := finalContext_counter_le K inputs ctx (by omega)
  refine ⟨hle, Nat.mod_eq_of_lt (by omega), ?_, fun hn hj h201 => ?_,
    fun hnj => update_no_joystick K _ i hnj⟩
  · by_cases hnj : i.num_joysticks > 0 ∧ i.joystick = true
    · rw [(update_counter_joystick K _ i hnj.1 hnj.2).2]
      simp only [decide_eq_true_eq]
      constructor
      · intro hgt
        exact ⟨hnj.1, hnj.2, by omega⟩
      · rintro ⟨-, -, h201⟩
        omega
    · rw [update_no_joystick K _ i hnj]
      constructor
      · intro hany
        simp at hany
      · rintro ⟨hn, hj, -⟩
        exact absurd ⟨hn, hj⟩ hnj
  · rw [(update_counter_joystick K _ i hn hj).1, watchdogNext_eq, h201]
    rfl

/-- Witness for C19: two cycles from a fresh context, then a cycle with a failing feed write. -/
theorem C19_counter_bounded_by_201_witness :
    freshContext.watchdog_counter = 0 ∧
    (finalContext sampleConstants freshContext
      [sampleInput 64, sampleInput 0]).watchdog_counter ≤ 201 :=
  ⟨rfl,
    (C19_counter_bounded_by_201 sampleConstants freshContext [sampleInput 64, sampleInput 0]
      (inputWithFeed 65 64) rfl).1⟩

/-! ### Sensor channels -/

/-- The sensor samples of a cycle that decodes a report: gyroscope then accelerometer, with the
integer channels in the order X, Z, -Y; the negation is taken on the promoted `int`, so a raw Y
of -32768 yields the channel value 32768.  The `float` scaling of the channels is outside the
embedding. -/
theorem sensorEvents_update_conforming (K : ControllerConstants)
    (ctx : SDL_DriverSteamDeck_Context) (i : UpdateInput) (h : reachesRead K ctx i)
    (hc : conforming K i.r i.report = true) :
    sensorEvents (HIDAPI_DriverSteamDeck_UpdateDevice K ctx i).effects =
      [ .JoystickSensor .SDL_SENSOR_GYRO
          ((ctx.sensor_timestamp_us + ctx.update_rate_us) % 2 ^ 32)
          i.report.deckState.sGyroX i.report.deckState.sGyroZ (-i.report.deckState.sGyroY),
        .JoystickSensor .SDL_SENSOR_ACCEL
          ((ctx.sensor_timestamp_us + ctx.update_rate_us) % 2 ^ 32)
          i.report.deckState.sAccelX i.report.deckState.sAccelZ
          (-i.report.deckState.sAccelY) ] := by
  rw [update_read_conforming K ctx i h hc]
  simp only [sensorEvents, List.filter_append]
  have h1 := sensorEvents_watchdogCalls K ctx i
  simp only [sensorEvents] at h1
  rw [h1]
  have h2 : (if i.report.deckState.ulButtons ≠ ctx.last_button_state
      then buttonCalls i.report.deckState else []).filter Effect.isSensor = [] := by
    split
    · rfl
    · rfl
  rw [h2]
  rfl

end SteamDeck
